import Mathlib

/-!
PromptPolish: a shallow embedding of the dispatcher and the page controller

The definitions follow `src/scripts/background.js` and `src/scripts/content.js`.
Asynchronous functions are embedded as pure functions of the environment they
observe (the storage snapshot and the answer of `fetch`); the outbound HTTP
calls they issue are recorded in an explicit trace.
-/

namespace PromptPolish

/-! ## JavaScript strings and values -/

/-- White space and line terminators of ECMAScript, the characters that
`String.prototype.trim` removes. -/
def isJsWhiteSpace (c : Char) : Bool :=
  let n := c.toNat
  n == 0x09 || n == 0x0A || n == 0x0B || n == 0x0C || n == 0x0D || n == 0x20 ||
  n == 0xA0 || n == 0x1680 || (0x2000 ≤ n && n ≤ 0x200A) || n == 0x2028 ||
  n == 0x2029 || n == 0x202F || n == 0x205F || n == 0x3000 || n == 0xFEFF

/-- Leading white space removed. -/
def trimStart (cs : List Char) : List Char :=
  cs.dropWhile isJsWhiteSpace

/-- Trailing white space removed. -/
def trimEnd (cs : List Char) : List Char :=
  (cs.reverse.dropWhile isJsWhiteSpace).reverse

/-- The method `String.prototype.trim`. -/
def jsTrim (s : String) : String :=
  ⟨trimEnd (trimStart s.data)⟩

/-- A JSON value as produced by `res.json()` or handed to `JSON.stringify`.
A number is kept as its canonical JavaScript rendering (`String(n)`), which is
`"0"` exactly for the two zeros. -/
inductive Json where
  | null : Json
  | bool (b : Bool) : Json
  | num (rendering : String) : Json
  | str (s : String) : Json
  | arr (items : List Json) : Json
  | obj (fields : List (String × Json)) : Json

/-- A JavaScript value read out of parsed JSON: `none` is `undefined`. -/
abbrev JsValue := Option Json

/-- Truthiness of a string-or-undefined value (`!!x`). -/
def truthyStr : Option String → Bool
  | none => false
  | some s => s != ""

/-- Truthiness of a value read out of parsed JSON (`!!x`). -/
def jsTruthy : JsValue → Bool
  | none => false
  | some .null => false
  | some (.bool b) => b
  | some (.num r) => r != "0"
  | some (.str s) => s != ""
  | some (.arr _) => true
  | some (.obj _) => true

/-- Optional property access `v?.name` for the property names used by the
adapters (`choices`, `message`, `content`, `candidates`, `parts`, `text`), none
of which exists on a primitive, on an array or on `Object.prototype`. -/
def getProp (v : JsValue) (name : String) : JsValue :=
  match v with
  | some (.obj fields) => fields.lookup name
  | _ => none

/-- Optional indexed access `v?.[0]`. -/
def getIndex0 (v : JsValue) : JsValue :=
  match v with
  | some (.arr items) => items.head?
  | some (.obj fields) => fields.lookup "0"
  | some (.str s) =>
    match s.data with
    | [] => none
    | c :: _ => some (.str ⟨[c]⟩)
  | _ => none

/-- The operator `a || b` on values read out of parsed JSON. -/
def jsOr (a b : JsValue) : JsValue :=
  if jsTruthy a then a else b

/-- A thrown `Error` object: its `name` and its `message`. -/
structure JsError where
  name : String
  message : String
deriving DecidableEq, Repr

/-- The call `new Error(message)`. -/
def mkError (message : String) : JsError :=
  ⟨"Error", message⟩

/-- The method `Error.prototype.toString`, which is what `String(error)` calls. -/
def JsError.render (e : JsError) : String :=
  if e.name = "" then e.message
  else if e.message = "" then e.name
  else e.name ++ ": " ++ e.message

/-! ## The network as seen by the adapters -/

/-- An outbound request handed to `fetch`; `body` is the value that the adapter
passes to `JSON.stringify`. -/
structure HttpRequest where
  url : String
  method : String
  headers : List (String × String)
  body : Json

/-- What an adapter can observe of a `Response`: `res.ok`, `res.status`, the
outcome of `res.text()` (`none` when it rejects) and the outcome of
`res.json()`. -/
structure Response where
  ok : Bool
  status : Nat
  text : Option String
  json : Except JsError Json

/-- The outcome of awaiting `fetch`: a rejection or a response. -/
inductive FetchResult where
  | rejected (e : JsError) : FetchResult
  | response (r : Response) : FetchResult

/-- The platform functions the background script calls. -/
structure Env where
  fetch : HttpRequest → FetchResult
  stringify : Json → String
  encodeURIComponent : String → String

/-- The run of an asynchronous function of the background script: the calls it
made to `fetch`, in order, and how its promise settled. -/
structure Run where
  calls : List HttpRequest
  result : Except JsError String

/-- The function `safeText`. -/
def safeText (res : Response) : String :=
  match res.text with
  | some t => t
  | none => "<no body>"

/-! ## Regular expressions of the form `/a|b|c/i` over ASCII alternatives -/

/-- Case folding of one character for an `i`-flagged regular expression without
the `u` flag, as a code point. The alternatives matched in this program are
ASCII; `Canonicalize` never maps a non-ASCII character to an ASCII one, so
folding the ASCII letters and leaving every other character alone decides the
same matches. -/
def foldCase (c : Char) : Nat :=
  if 97 ≤ c.toNat ∧ c.toNat ≤ 122 then c.toNat - 32 else c.toNat

/-- Does `pat` match at the start of `text`, ignoring ASCII case? -/
def matchesAt : List Char → List Char → Bool
  | [], _ => true
  | _ :: _, [] => false
  | p :: ps, c :: cs => foldCase p == foldCase c && matchesAt ps cs

/-- Does `pat` match somewhere in `text`, ignoring ASCII case? -/
def occursCI (pat : List Char) : List Char → Bool
  | [] => matchesAt pat []
  | c :: cs => matchesAt pat (c :: cs) || occursCI pat cs

/-- The call `/alt1|alt2|.../i.test(text)` for literal alternatives. -/
def regexTestCI (alternatives : List String) (text : String) : Bool :=
  alternatives.any fun alt => occursCI alt.data text.data

/-! ## `background.js` -/

/-- The constant `DEFAULT_META_PROMPT`. -/
def DEFAULT_META_PROMPT : String :=
  "You are a professional prompt engineer. Your sole task is to improve the clarity, specificity, and effectiveness of user prompts for large language models.\n\nDo not generate code, images, or perform any actions other than rewriting the prompt for better LLM understanding.\n\nOutput only the improved prompt, without commentary or instructions.\n\nUser Prompt: "

/-- The entry `PROVIDERS.OPENAI`. -/
def PROVIDERS.OPENAI : String := "openai"
/-- The entry `PROVIDERS.GEMINI`. -/
def PROVIDERS.GEMINI : String := "gemini"
/-- The entry `PROVIDERS.CLAUDE`. -/
def PROVIDERS.CLAUDE : String := "claude"
/-- The entry `PROVIDERS.OPENROUTER`. -/
def PROVIDERS.OPENROUTER : String := "openrouter"

/-- The call `v.trim()` on a value read out of parsed JSON: only a string has
the method, on anything else the call throws a `TypeError`. -/
def callTrim (receiver : String) (v : JsValue) : Except JsError String :=
  match v with
  | some (.str s) => .ok (jsTrim s)
  | _ => .error ⟨"TypeError", receiver ++ ".trim is not a function"⟩

/-- The message thrown by `callOpenrouter` for the data-policy 404. -/
def OPENROUTER_PRIVACY_MESSAGE : String :=
  "OpenRouter: Your privacy settings block free models. Either enable \"Free model publication\" in OpenRouter Settings → Privacy, or choose a non-free model. See https://openrouter.ai/settings/privacy"

/-- The request that `callOpenrouter` hands to `fetch`. -/
def openrouterRequest (apiKey prompt : String) : HttpRequest :=
  let url := "https://openrouter.ai/api/v1/chat/completions"
  let body := Json.obj [
    ("model", .str "openai/gpt-oss-120b:free"),
    ("messages", .arr [.obj [("role", .str "user"), ("content", .str prompt)]]),
    ("temperature", .num "0.4")]
  HttpRequest.mk url "POST" [
    ("Content-Type", "application/json"),
    ("Authorization", "Bearer " ++ apiKey),
    ("HTTP-Referer", "chrome-extension://prompt-optimizer"),
    ("X-Title", "Prompt Optimizer")] body

/-- The function `callOpenrouter`. -/
def callOpenrouter (env : Env) (apiKey prompt : String) : Run :=
  let req := openrouterRequest apiKey prompt
  match env.fetch req with
  | .rejected e => ⟨[req], .error e⟩
  | .response res =>
    if !res.ok then
      let text := safeText res
      if res.status == 404 &&
          regexTestCI ["No endpoints found matching your data policy"] text then
        ⟨[req], .error (mkError OPENROUTER_PRIVACY_MESSAGE)⟩
      else
        ⟨[req], .error (mkError ("OpenRouter error " ++ toString res.status ++ ": " ++ text))⟩
    else
      match res.json with
      | .error e => ⟨[req], .error e⟩
      | .ok data =>
        let content := getProp (getProp (getIndex0 (getProp (some data) "choices")) "message") "content"
        if !jsTruthy content then ⟨[req], .error (mkError "Empty response from Openrouter")⟩
        else ⟨[req], callTrim "content" content⟩

/-- The request that `callClaude` hands to `fetch`. -/
def claudeRequest (apiKey prompt : String) : HttpRequest :=
  let url := "https://api.anthropic.com/v1/messages"
  let body := Json.obj [
    ("model", .str "claude-3-sonnet-20240229"),
    ("max_tokens", .num "512"),
    ("temperature", .num "0.4"),
    ("messages", .arr [.obj [("role", .str "user"), ("content", .str prompt)]])]
  HttpRequest.mk url "POST" [
    ("Content-Type", "application/json"),
    ("x-api-key", apiKey),
    ("anthropic-version", "2023-06-01")] body

/-- The function `callClaude`. -/
def callClaude (env : Env) (apiKey prompt : String) : Run :=
  let req := claudeRequest apiKey prompt
  match env.fetch req with
  | .rejected e => ⟨[req], .error e⟩
  | .response res =>
    if !res.ok then
      let text := safeText res
      ⟨[req], .error (mkError ("Claude error " ++ toString res.status ++ ": " ++ text))⟩
    else
      match res.json with
      | .error e => ⟨[req], .error e⟩
      | .ok data =>
        let content := jsOr (getProp (some data) "content")
          (getProp (getProp (getIndex0 (getProp (some data) "choices")) "message") "content")
        if !jsTruthy content then ⟨[req], .error (mkError "Empty response from Claude")⟩
        else
          match content with
          | some (.str s) => ⟨[req], .ok (jsTrim s)⟩
          | some j => ⟨[req], .ok (env.stringify j)⟩
          | none => ⟨[req], .error (mkError "Empty response from Claude")⟩

/-- The request that `callOpenAI` hands to `fetch`. -/
def openaiRequest (apiKey prompt : String) : HttpRequest :=
  let url := "https://api.openai.com/v1/chat/completions"
  let body := Json.obj [
    ("model", .str "gpt-4o-mini"),
    ("messages", .arr [
      .obj [("role", .str "system"),
            ("content", .str "You improve prompts. Output only the improved prompt.")],
      .obj [("role", .str "user"), ("content", .str prompt)]]),
    ("temperature", .num "0.4")]
  HttpRequest.mk url "POST" [
    ("Content-Type", "application/json"),
    ("Authorization", "Bearer " ++ apiKey)] body

/-- The function `callOpenAI`. -/
def callOpenAI (env : Env) (apiKey prompt : String) : Run :=
  let req := openaiRequest apiKey prompt
  match env.fetch req with
  | .rejected e => ⟨[req], .error e⟩
  | .response res =>
    if !res.ok then
      let text := safeText res
      ⟨[req], .error (mkError ("OpenAI error " ++ toString res.status ++ ": " ++ text))⟩
    else
      match res.json with
      | .error e => ⟨[req], .error e⟩
      | .ok data =>
        let content := getProp (getProp (getIndex0 (getProp (some data) "choices")) "message") "content"
        if !jsTruthy content then ⟨[req], .error (mkError "Empty response from OpenAI")⟩
        else ⟨[req], callTrim "content" content⟩

/-- The request that `callGemini` hands to `fetch`. -/
def geminiRequest (env : Env) (apiKey prompt : String) : HttpRequest :=
  let model := "gemini-2.5-flash"
  let url := "https://generativelanguage.googleapis.com/v1beta/models/" ++ model ++
    ":generateContent?key=" ++ env.encodeURIComponent apiKey
  let body := Json.obj [
    ("contents", .arr [.obj [("role", .str "user"), ("parts", .arr [.obj [("text", .str prompt)]])]]),
    ("generationConfig", .obj [("temperature", .num "0.4")])]
  HttpRequest.mk url "POST" [("Content-Type", "application/json")] body

/-- The function `callGemini`. -/
def callGemini (env : Env) (apiKey prompt : String) : Run :=
  let req := geminiRequest env apiKey prompt
  match env.fetch req with
  | .rejected e => ⟨[req], .error e⟩
  | .response res =>
    if !res.ok then
      let text := safeText res
      ⟨[req], .error (mkError ("Gemini error " ++ toString res.status ++ ": " ++ text))⟩
    else
      match res.json with
      | .error e => ⟨[req], .error e⟩
      | .ok data =>
        let text := getProp (getIndex0 (getProp (getProp (getIndex0
          (getProp (some data) "candidates")) "content") "parts")) "text"
        if !jsTruthy text then ⟨[req], .error (mkError "Empty response from Gemini")⟩
        else ⟨[req], callTrim "text" text⟩

/-- The payload of an `OPTIMIZE_PROMPT` message; an absent field is `none`. -/
structure Payload where
  provider : Option String
  userPrompt : Option String

/-- The snapshot returned by `chrome.storage.sync.get` for the six keys the
dispatcher reads; a key that was never stored is `none`. -/
structure Storage where
  po_master_prompt : Option String
  po_provider : Option String
  po_openai_key : Option String
  po_gemini_key : Option String
  po_claude_key : Option String
  po_openrouter_key : Option String

/-- The expression `provider || storage.po_provider || PROVIDERS.OPENAI`. -/
def effectiveProvider (provider stored : Option String) : String :=
  match provider with
  | some p => if p != "" then p else
    match stored with
    | some s => if s != "" then s else PROVIDERS.OPENAI
    | none => PROVIDERS.OPENAI
  | none =>
    match stored with
    | some s => if s != "" then s else PROVIDERS.OPENAI
    | none => PROVIDERS.OPENAI

/-- The expression that computes `metaPrompt` in `handleOptimize`. -/
def metaPromptOf (storage : Storage) : String :=
  match storage.po_master_prompt with
  | some m => if m != "" && jsTrim m != "" then jsTrim m else DEFAULT_META_PROMPT
  | none => DEFAULT_META_PROMPT

/-- The function `handleOptimize`; `payload` is `none` when the message carries
no payload (`payload || \x7b\x7d`). -/
def handleOptimize (env : Env) (storage : Storage) (payload : Option Payload) : Run :=
  let provider := payload.bind Payload.provider
  let userPrompt := payload.bind Payload.userPrompt
  match userPrompt with
  | none => ⟨[], .error (mkError "Missing user prompt")⟩
  | some userPrompt =>
    if !(userPrompt != "") then ⟨[], .error (mkError "Missing user prompt")⟩
    else
      let effectiveProvider := effectiveProvider provider storage.po_provider
      let metaPrompt := metaPromptOf storage
      let prompt := metaPrompt ++ userPrompt
      if effectiveProvider = PROVIDERS.OPENAI then
        match storage.po_openai_key with
        | some key =>
          if !(key != "") then ⟨[], .error (mkError "OpenAI API key not set. Add it in Options.")⟩
          else callOpenAI env key prompt
        | none => ⟨[], .error (mkError "OpenAI API key not set. Add it in Options.")⟩
      else if effectiveProvider = PROVIDERS.GEMINI then
        match storage.po_gemini_key with
        | some key =>
          if !(key != "") then ⟨[], .error (mkError "Gemini API key not set. Add it in Options.")⟩
          else callGemini env key prompt
        | none => ⟨[], .error (mkError "Gemini API key not set. Add it in Options.")⟩
      else if effectiveProvider = PROVIDERS.CLAUDE then
        match storage.po_claude_key with
        | some key =>
          if !(key != "") then ⟨[], .error (mkError "Claude API key not set. Add it in Options.")⟩
          else callClaude env key prompt
        | none => ⟨[], .error (mkError "Claude API key not set. Add it in Options.")⟩
      else if effectiveProvider = PROVIDERS.OPENROUTER then
        match storage.po_openrouter_key with
        | some key =>
          if !(key != "") then ⟨[], .error (mkError "Openrouter API key not set. Add it in Options.")⟩
          else callOpenrouter env key prompt
        | none => ⟨[], .error (mkError "Openrouter API key not set. Add it in Options.")⟩
      else ⟨[], .error (mkError "Unsupported provider")⟩

/-- A message received by the `chrome.runtime.onMessage` listener. -/
inductive Message where
  | openOptions : Message
  | optimizePrompt (payload : Option Payload) : Message
  | other : Message

/-- A reply passed to `sendResponse`. -/
inductive Reply where
  | ok : Reply
  | success (optimized : String) : Reply
  | failure (error : String) : Reply
deriving DecidableEq, Repr

/-- The expression `error?.message || String(error)` of the listener. -/
def errorText (e : JsError) : String :=
  if e.message != "" then e.message else e.render

/-- The `OPTIMIZE_PROMPT` branch of the listener: the calls made to `fetch` and
the reply sent. -/
def onOptimizePrompt (env : Env) (storage : Storage) (payload : Option Payload) :
    List HttpRequest × Reply :=
  let run := handleOptimize env storage payload
  match run.result with
  | .ok optimized => (run.calls, .success optimized)
  | .error error => (run.calls, .failure (errorText error))

/-- The `chrome.runtime.onMessage` listener: the calls made to `fetch` and the
reply sent, if any. -/
def onMessage (env : Env) (storage : Storage) (message : Message) :
    List HttpRequest × Option Reply :=
  match message with
  | .openOptions => ([], some .ok)
  | .optimizePrompt payload =>
    let r := onOptimizePrompt env storage payload
    (r.1, some r.2)
  | .other => ([], none)

/-! ## `content.js`: escaping and the failure branch of the submit handler -/

/-- One call `s.replace(/c/g, rep)` for a single-character pattern. -/
def replaceAll (c : Char) (rep : String) : List Char → List Char
  | [] => []
  | x :: xs => (if x = c then rep.data else [x]) ++ replaceAll c rep xs

/-- The function `escapeHTML`: five global replacements, in the order of the
source. -/
def escapeHTML (str : String) : String :=
  ⟨replaceAll (Char.ofNat 39) "&#039;"
    (replaceAll (Char.ofNat 34) "&quot;"
      (replaceAll (Char.ofNat 62) "&gt;"
        (replaceAll (Char.ofNat 60) "&lt;"
          (replaceAll (Char.ofNat 38) "&amp;" str.data))))⟩

/-- The function `needsApiKeyHint`; an absent text is tested as the empty
string (`text || ''`). -/
def needsApiKeyHint (text : Option String) : Bool :=
  regexTestCI ["api key", "key not set", "add it in options", "not set", "missing key"]
    (match text with
     | some t => if t != "" then t else ""
     | none => "")

/-- What the submit handler writes into the error area `#po-error`: markup
assigned to `innerHTML`, which holds the `Open Options` shortcut button, or
plain text assigned to `textContent`. -/
inductive ErrorDisplay where
  | withShortcut (innerHTML : String) : ErrorDisplay
  | plain (textContent : String) : ErrorDisplay
deriving DecidableEq, Repr

/-- The hint markup appended to the escaped message. -/
def HINT_MARKUP : String :=
  "<br><span class=\"po-hint\">Add your API key to continue. Click the extension icon to open the Options page, or <button type=\"button\" class=\"po-mini-btn\" id=\"po-open-options-btn\">Open Options</button>.</span>"

/-- The expression `response?.error || 'Optimization failed.'` on a reply that
is not a success; `none` is a missing reply. -/
def failureMessage (response : Option Reply) : String :=
  match response with
  | some (.failure error) => if error != "" then error else "Optimization failed."
  | _ => "Optimization failed."

/-- The failure branch of the submit handler: how the message is displayed. -/
def renderFailure (response : Option Reply) : ErrorDisplay :=
  let msg := failureMessage response
  if needsApiKeyHint (some msg) then .withShortcut (escapeHTML msg ++ HINT_MARKUP)
  else .plain msg

/-! ## `content.js`: the document -/

/-- A node of the document: a text node or an element with its reference (the
identity of the JavaScript object), local name, attributes and child nodes. -/
inductive Node where
  | text (data : String) : Node
  | elem (ref : Nat) (tag : String) (attrs : List (String × String))
      (children : List Node) : Node
deriving Repr

/-- The place of a node in the document: the child indices from the root. -/
abbrev Path := List Nat

/-- The attribute `name` of a node, if it is an element that has it. -/
def Node.attr (name : String) : Node → Option String
  | .text _ => none
  | .elem _ _ attrs _ => attrs.lookup name

/-- The local name of an element. -/
def Node.tag? : Node → Option String
  | .text _ => none
  | .elem _ tag _ _ => some tag

/-- Is the node the element with reference `r`? -/
def Node.hasRef (r : Nat) : Node → Bool
  | .text _ => false
  | .elem r' _ _ _ => r' == r

/-- Is the node an element whose `id` attribute is `id`? -/
def Node.hasId (id : String) (n : Node) : Bool :=
  n.attr "id" == some id

mutual
/-- The number of elements of a subtree that satisfy `q`. -/
def Node.count (q : Node → Bool) : Node → Nat
  | .text _ => 0
  | .elem r t a cs => (if q (.elem r t a cs) then 1 else 0) + Node.countList q cs
/-- The number of elements of a list of subtrees that satisfy `q`. -/
def Node.countList (q : Node → Bool) : List Node → Nat
  | [] => 0
  | n :: ns => Node.count q n + Node.countList q ns
end

mutual
/-- The first element of a subtree, in tree order, that satisfies `pred`; the
predicate sees the ancestors of the element, nearest first. -/
def Node.find (pred : List Node → Node → Bool) (ancs : List Node) : Node → Option Path
  | .text _ => none
  | .elem r t a cs =>
    if pred ancs (.elem r t a cs) then some []
    else Node.findList pred (.elem r t a cs :: ancs) 0 cs
/-- The first element of a list of sibling subtrees, the first of which is
child number `i`, that satisfies `pred`. -/
def Node.findList (pred : List Node → Node → Bool) (ancs : List Node) (i : Nat) :
    List Node → Option Path
  | [] => none
  | c :: cs =>
    match Node.find pred ancs c with
    | some p => some (i :: p)
    | none => Node.findList pred ancs (i + 1) cs
end

/-- The node at a path. -/
def Node.at? : Node → Path → Option Node
  | n, [] => some n
  | .text _, _ :: _ => none
  | .elem _ _ _ cs, i :: p =>
    match cs[i]? with
    | some c => Node.at? c p
    | none => none

/-- The nodes strictly above the node at a path, nearest first. -/
def Node.ancestors : Node → Path → List Node → List Node
  | _, [], acc => acc
  | .text _, _ :: _, acc => acc
  | .elem r t a cs, i :: p, acc =>
    match cs[i]? with
    | some c => Node.ancestors c p (.elem r t a cs :: acc)
    | none => acc

/-- Insertion of `x` into a list of children: before the child at the given
index, or at the end when there is no index or no such child. -/
def insertAt (x : Node) : Option Nat → List Node → List Node
  | none, cs => cs ++ [x]
  | some _, [] => [x]
  | some 0, c :: cs => x :: c :: cs
  | some (i + 1), c :: cs => c :: insertAt x (some i) cs

mutual
/-- The tree with `x` inserted among the children of the element at a path. -/
def Node.insertChild (x : Node) (idx : Option Nat) : Node → Path → Node
  | .text d, _ => .text d
  | .elem r t a cs, [] => .elem r t a (insertAt x idx cs)
  | .elem r t a cs, i :: p => .elem r t a (Node.insertInList x idx cs i p)
/-- Insertion below child number `i` of a list of children. -/
def Node.insertInList (x : Node) (idx : Option Nat) : List Node → Nat → Path → List Node
  | [], _, _ => []
  | c :: cs, 0, p => Node.insertChild x idx c p :: cs
  | c :: cs, i + 1, p => c :: Node.insertInList x idx cs i p
end

mutual
/-- The tree without the subtrees whose root is the element with reference `r`
(the method `remove` of that element). -/
def Node.removeRef (r : Nat) : Node → Node
  | .text d => .text d
  | .elem r' t a cs => .elem r' t a (Node.removeRefList r cs)
/-- The children without the subtrees whose root has reference `r`. -/
def Node.removeRefList (r : Nat) : List Node → List Node
  | [] => []
  | c :: cs =>
    if c.hasRef r then Node.removeRefList r cs
    else Node.removeRef r c :: Node.removeRefList r cs
end

/-! ### Selectors -/

/-- Does `pat` stand at the start of `text`? -/
def startsWithExact : List Char → List Char → Bool
  | [], _ => true
  | _ :: _, [] => false
  | p :: ps, c :: cs => p == c && startsWithExact ps cs

/-- Does `pat` occur in `text`? -/
def occursExact (pat : List Char) : List Char → Bool
  | [] => startsWithExact pat []
  | c :: cs => startsWithExact pat (c :: cs) || occursExact pat cs

/-- The ASCII white space that separates the tokens of a `class` attribute. -/
def isAsciiSpace (c : Char) : Bool :=
  c.toNat == 0x09 || c.toNat == 0x0A || c.toNat == 0x0C || c.toNat == 0x0D || c.toNat == 0x20

/-- The white-space separated tokens of an attribute value; `acc` holds the
token being read, reversed. -/
def splitTokens : List Char → List Char → List (List Char)
  | [], acc => if acc.isEmpty then [] else [acc.reverse]
  | c :: cs, acc =>
    if isAsciiSpace c then
      (if acc.isEmpty then splitTokens cs [] else acc.reverse :: splitTokens cs [])
    else splitTokens cs (c :: acc)

/-- A simple selector, of the kinds that occur in `content.js`. -/
inductive Simple where
  | tag (name : String) : Simple
  | cls (name : String) : Simple
  | attrEq (name value : String) : Simple
  | attrHas (name value : String) (ignoreCase : Bool) : Simple

/-- Does an element satisfy a simple selector? -/
def Simple.holds (n : Node) : Simple → Bool
  | .tag name => n.tag? == some name
  | .cls name =>
    match n.attr "class" with
    | some v => (splitTokens v.data []).contains name.data
    | none => false
  | .attrEq name value => n.attr name == some value
  | .attrHas name value ignoreCase =>
    match n.attr name with
    | some v =>
      value != "" &&
        (if ignoreCase then occursCI value.data v.data else occursExact value.data v.data)
    | none => false

/-- A compound selector with at most one descendant combinator before it:
`subject` or `ancestor subject`. -/
structure Complex where
  ancestor : Option (List Simple)
  subject : List Simple

/-- Does an element with the given ancestors satisfy a complex selector? -/
def Complex.holds (ancs : List Node) (n : Node) (c : Complex) : Bool :=
  c.subject.all (Simple.holds n) &&
    match c.ancestor with
    | none => true
    | some a => ancs.any fun m => a.all (Simple.holds m)

/-- Does an element with the given ancestors match a selector list? Text nodes
match nothing. -/
def matchesSelector (sel : List Complex) (ancs : List Node) (n : Node) : Bool :=
  match n with
  | .text _ => false
  | .elem _ _ _ _ => sel.any (Complex.holds ancs n)

/-- The selector `textarea[placeholder*="Send a message" i]`. -/
def SEL_CHATGPT_TEXTAREA : List Complex :=
  [⟨none, [.tag "textarea", .attrHas "placeholder" "Send a message" true]⟩]
/-- The selector `form textarea`. -/
def SEL_FORM_TEXTAREA : List Complex := [⟨some [.tag "form"], [.tag "textarea"]⟩]
/-- The selector `textarea`. -/
def SEL_TEXTAREA : List Complex := [⟨none, [.tag "textarea"]⟩]
/-- The selector `div[contenteditable="true"]`. -/
def SEL_EDITABLE_DIV : List Complex :=
  [⟨none, [.tag "div", .attrEq "contenteditable" "true"]⟩]
/-- The selector `form`. -/
def SEL_FORM : List Complex := [⟨none, [.tag "form"]⟩]
/-- The selector `div`. -/
def SEL_DIV : List Complex := [⟨none, [.tag "div"]⟩]
/-- The selector `button, div svg`. -/
def SEL_PLUS_ICON : List Complex := [⟨none, [.tag "button"]⟩, ⟨some [.tag "div"], [.tag "svg"]⟩]
/-- The selector `[data-testid*="send"]`. -/
def SEL_SEND_TESTID : List Complex := [⟨none, [.attrHas "data-testid" "send" false]⟩]
/-- The selector `button[aria-label*="Send" i]`. -/
def SEL_SEND_LABEL : List Complex :=
  [⟨none, [.tag "button", .attrHas "aria-label" "Send" true]⟩]
/-- The selector `.leading-actions-wrapper`. -/
def SEL_LEADING_WRAPPER : List Complex := [⟨none, [.cls "leading-actions-wrapper"]⟩]
/-- The selector `textarea, div[contenteditable="true"]`. -/
def SEL_CARD_INPUT : List Complex :=
  [⟨none, [.tag "textarea"]⟩, ⟨none, [.tag "div", .attrEq "contenteditable" "true"]⟩]

/-! ### The page and the DOM calls of `content.js` -/

/-- The state of a page as the content script sees it: `location.hostname`,
the tree under `document.documentElement`, the next unused element reference,
and the references of the overlays whose close handlers `openModal` has
registered. -/
structure Page where
  hostname : String
  root : Node
  next : Nat
  overlays : List Nat
deriving Repr

/-- The call `document.querySelector(sel)`. -/
def querySelector (root : Node) (sel : List Complex) : Option Path :=
  Node.find (matchesSelector sel) [] root

/-- The call `el.querySelector(sel)` for the element at path `p`: the first
descendant of `el` that matches, the selector being tested against the whole
document. -/
def querySelectorIn (root : Node) (p : Path) (sel : List Complex) : Option Path :=
  match root.at? p with
  | some (.elem r t a cs) =>
    (Node.findList (matchesSelector sel) (.elem r t a cs :: Node.ancestors root p []) 0 cs).map
      fun q => p ++ q
  | _ => none

/-- The call `el.closest(sel)` for the element at path `p`: the element itself
or its nearest ancestor that matches. -/
def closest (root : Node) (p : Path) (sel : List Complex) : Option Path :=
  p.inits.reverse.find? fun q =>
    match root.at? q with
    | some n => matchesSelector sel (Node.ancestors root q []) n
    | none => false

/-- The call `document.getElementById(id)`: the first element of the document
with that `id`. Every element it returns is in the document tree, so
`existing.isConnected` holds for each of them. -/
def getElementById (root : Node) (id : String) : Option Path :=
  Node.find (fun _ n => n.hasId id) [] root

/-- The property `el.parentElement` for the element at path `p`; the root
element has none. -/
def parentElement (p : Path) : Option Path :=
  match p with
  | [] => none
  | _ :: _ => some p.dropLast

/-- The property `document.body`: the first `body` or `frameset` child of the
root element. -/
def bodyPath (root : Node) : Option Path :=
  match root with
  | .text _ => none
  | .elem _ _ _ cs =>
    (cs.findIdx? fun c => c.tag? == some "body" || c.tag? == some "frameset").map fun i => [i]

/-- The table `ID` of `content.js`. -/
def ID.button : String := "po-optimize-button"
/-- The entry `ID.modal`. -/
def ID.modal : String := "po-modal"
/-- The entry `ID.overlay`. -/
def ID.overlay : String := "po-overlay"
/-- The entry `ID.form`. -/
def ID.form : String := "po-form"
/-- The entry `ID.input`. -/
def ID.input : String := "po-input"
/-- The entry `ID.output`. -/
def ID.output : String := "po-output"
/-- The entry `ID.provider`. -/
def ID.provider : String := "po-provider"

/-- The function `isChatGPT`. -/
def isChatGPT (page : Page) : Bool :=
  page.hostname == "chat.openai.com" || page.hostname == "chatgpt.com"

/-- The function `isGemini`. -/
def isGemini (page : Page) : Bool :=
  page.hostname == "gemini.google.com"

/-- The first selector of a list that matches something in the document, as in
the `for` loops of `findPromptInput`. -/
def firstMatch (root : Node) : List (List Complex) → Option Path
  | [] => none
  | sel :: rest =>
    match querySelector root sel with
    | some el => some el
    | none => firstMatch root rest

/-- The function `findPromptInput`. -/
def findPromptInput (page : Page) : Option Path :=
  match (if isChatGPT page then firstMatch page.root [SEL_CHATGPT_TEXTAREA, SEL_FORM_TEXTAREA]
         else none) with
  | some el => some el
  | none =>
    match (if isGemini page then firstMatch page.root [SEL_TEXTAREA, SEL_EDITABLE_DIV]
           else none) with
    | some el => some el
    | none => none

/-! ### `injectButton` and `ensureUI` -/

/-- The button that `injectButton` creates, with element reference `ref`. -/
def triggerButton (ref : Nat) : Node :=
  .elem ref "button" [("id", ID.button), ("type", "button"), ("class", "po-inline-trigger")]
    [.text "Optimize"]

/-- The outcome of one placement strategy: the button goes among the children
of `parent` (before the child at `idx`, or at the end), or the function
returns without inserting, or the strategy does not apply. -/
inductive Placement where
  | insert (parent : Path) (idx : Option Nat) : Placement
  | done : Placement
  | fallThrough : Placement

/-- The ChatGPT placement strategy of `injectButton`. -/
def chatGPTPlacement (root : Node) (target : Path) : Placement :=
  let form := closest root target SEL_FORM
  let plusIcon := form.bind fun f => querySelectorIn root f SEL_PLUS_ICON
  let rightCluster := form.bind fun f =>
    match querySelectorIn root f SEL_SEND_TESTID with
    | some el => some el
    | none => querySelectorIn root f SEL_SEND_LABEL
  match rightCluster, rightCluster.bind parentElement with
  | some rc, some par => .insert par rc.getLast?
  | _, _ =>
    match plusIcon, plusIcon.bind parentElement with
    | some icon, some par => .insert par (icon.getLast?.map fun i => i + 1)
    | _, _ => .fallThrough

/-- The Gemini placement strategy of `injectButton`. -/
def geminiPlacement (root : Node) (target : Path) : Placement :=
  match querySelector root SEL_LEADING_WRAPPER with
  | some leadingWrapper =>
    if (getElementById root ID.button).isNone then .insert leadingWrapper none else .done
  | none =>
    match closest root target SEL_DIV with
    | some card =>
      if (querySelectorIn root card SEL_CARD_INPUT).isSome then .insert card none
      else .fallThrough
    | none => .fallThrough

/-- The last statement of `injectButton`: append to the parent of the input,
or to `document.body` when the input has no parent element (the call throws
when there is no body, and nothing is inserted). -/
def fallbackPlacement (root : Node) (target : Path) : Placement :=
  match parentElement target with
  | some par => .insert par none
  | none =>
    match bodyPath root with
    | some body => .insert body none
    | none => .done

/-- The placement that `injectButton` settles on: the strategy of the host,
then the fallback. -/
def choosePlacement (page : Page) (target : Path) : Placement :=
  match (if isChatGPT page then chatGPTPlacement page.root target else .fallThrough) with
  | .insert parent idx => .insert parent idx
  | .done => .done
  | .fallThrough =>
    match (if isGemini page then geminiPlacement page.root target else .fallThrough) with
    | .insert parent idx => .insert parent idx
    | .done => .done
    | .fallThrough => fallbackPlacement page.root target

/-- The function `injectButton`; `target` is `none` for `null`. -/
def injectButton (page : Page) (target : Option Path) : Page :=
  match target with
  | none => page
  | some target =>
    match getElementById page.root ID.button with
    | some _ => page
    | none =>
      let btn := triggerButton page.next
      match choosePlacement page target with
      | .insert parent idx =>
        ⟨page.hostname, Node.insertChild btn idx page.root parent, page.next + 1, page.overlays⟩
      | _ => ⟨page.hostname, page.root, page.next + 1, page.overlays⟩

/-- The function `ensureUI`. -/
def ensureUI (page : Page) : Page :=
  match findPromptInput page with
  | some input => injectButton page (some input)
  | none => page

/-! ### `openModal` and the close handlers -/

/-- The subtree that `openModal` builds, its elements numbered from `base` in
the order of their creation. -/
def overlayTree (base : Nat) : Node :=
  let title := Node.elem (base + 3) "h2" [("class", "po-title")]
    [.text "Prompt Optimizer ", .elem (base + 4) "span" [("class", "po-badge")] [.text "BETA"]]
  let openOptsBtn := Node.elem (base + 6) "button" [("type", "button"), ("class", "po-head-btn")]
    [.text "Open Options"]
  let closeBtn := Node.elem (base + 7) "button"
    [("class", "po-close-btn"), ("type", "button"), ("aria-label", "Close dialog")] [.text "×"]
  let headerRight := Node.elem (base + 5) "div" [("class", "po-header-right")]
    [openOptsBtn, closeBtn]
  let header := Node.elem (base + 2) "div" [("class", "po-header")] [title, headerRight]
  let providerLabel := Node.elem (base + 12) "label" [("for", ID.provider)] [.text "Provider"]
  let providerSelect := Node.elem (base + 13) "select" [("id", ID.provider)] [
    .text "\n      ",
    .elem (base + 14) "option" [("value", "openai")] [.text "OpenAI (gpt-4o-mini)"],
    .text "\n      ",
    .elem (base + 15) "option" [("value", "gemini")] [.text "Gemini (2.5-flash)"],
    .text "\n      ",
    .elem (base + 16) "option" [("value", "claude")] [.text "Anthropic Claude (sonnet-3)"],
    .text "\n      ",
    .elem (base + 17) "option" [("value", "openrouter")]
      [.text "Openrouter (deepseek-chat-v3.1:free)"],
    .text "\n    "]
  let providerRow := Node.elem (base + 11) "div" [] [providerLabel, providerSelect]
  let input := Node.elem (base + 18) "textarea"
    [("id", ID.input), ("placeholder", "Enter your initial prompt..."), ("rows", "10"),
     ("aria-label", "Initial prompt")] []
  let submit := Node.elem (base + 19) "button" [("type", "submit"), ("class", "po-primary")]
    [.text "Optimize Prompt"]
  let colLeft := Node.elem (base + 10) "div" [("class", "po-col")] [providerRow, input, submit]
  let output := Node.elem (base + 22) "textarea"
    [("id", ID.output), ("placeholder", "Optimized prompt will appear here..."), ("rows", "14"),
     ("readonly", ""), ("class", "po-output"), ("aria-label", "Optimized prompt output")] []
  let copyBtn := Node.elem (base + 24) "button"
    [("type", "button"), ("class", "po-tool-btn"), ("disabled", "")] [.text "Copy"]
  let toolbar := Node.elem (base + 23) "div" [("class", "po-toolbar")] [copyBtn]
  let outputWrap := Node.elem (base + 21) "div" [("class", "po-output-wrap")] [output, toolbar]
  let colRight := Node.elem (base + 20) "div" [("class", "po-col")] [outputWrap]
  let grid := Node.elem (base + 9) "div" [("class", "po-grid")] [colLeft, colRight]
  let errorMsg := Node.elem (base + 25) "div" [("id", "po-error"), ("role", "alert")] []
  let form := Node.elem (base + 8) "form" [("id", ID.form)] [grid, errorMsg]
  let modal := Node.elem (base + 1) "div"
    [("id", ID.modal), ("role", "dialog"), ("aria-modal", "true"), ("tabindex", "-1")]
    [header, form]
  .elem base "div" [("id", ID.overlay)] [modal]

/-- The function `openModal`, up to the registration of the close handlers:
nothing happens when an element with id `po-modal` is in the document;
otherwise the overlay is built and appended to `document.body` (the call throws
when there is no body, and nothing is attached). -/
def openModal (page : Page) : Page :=
  match getElementById page.root ID.modal with
  | some _ => page
  | none =>
    match bodyPath page.root with
    | some body =>
      ⟨page.hostname, Node.insertChild (overlayTree page.next) none page.root body,
        page.next + 26, page.next :: page.overlays⟩
    | none => ⟨page.hostname, page.root, page.next + 26, page.overlays⟩

/-- The two close handlers of an overlay (the close button, a click on the
overlay background): `overlay.remove()` for the overlay with reference `r`. -/
def closeOverlay (page : Page) (r : Nat) : Page :=
  ⟨page.hostname, Node.removeRef r page.root, page.next, page.overlays⟩

/-- A user action on the page: activating the trigger, or closing the overlay
with the given reference. -/
inductive Action where
  | activate : Action
  | close (overlay : Nat) : Action

/-- The effect of one action. The click handler of the trigger is `openModal`;
a close handler exists only for an overlay that `openModal` created. -/
def step (page : Page) : Action → Page
  | .activate => openModal page
  | .close r => if r ∈ page.overlays then closeOverlay page r else page

/-- The effect of a sequence of actions. -/
def runActions (page : Page) (actions : List Action) : Page :=
  actions.foldl step page

/-- The number of elements with id `po-optimize-button` in the document. -/
def triggerCount (page : Page) : Nat :=
  Node.count (Node.hasId ID.button) page.root

/-- The number of elements with id `po-modal` in the document. -/
def modalCount (page : Page) : Nat :=
  Node.count (Node.hasId ID.modal) page.root

/-! ### Sample pages -/

/-- A ChatGPT page: a composer form with a leading button, the prompt textarea
and a send button. -/
def chatGPTPage : Page :=
  ⟨"chatgpt.com",
   .elem 0 "html" [] [
     .elem 1 "head" [] [],
     .elem 2 "body" [] [
       .elem 3 "main" [] [
         .elem 4 "form" [] [
           .elem 5 "div" [] [
             .elem 6 "button" [("aria-label", "Attach")] [],
             .elem 7 "textarea" [("placeholder", "Send a message")] []],
           .elem 8 "div" [] [
             .elem 9 "button" [("data-testid", "send-button")] []]]]]],
   10, []⟩

/-- A Gemini page: a content-editable input and the leading actions wrapper. -/
def geminiPage : Page :=
  ⟨"gemini.google.com",
   .elem 0 "html" [] [
     .elem 1 "body" [] [
       .elem 2 "div" [("class", "input-area")] [
         .elem 3 "div" [("class", "leading-actions-wrapper ng-star-inserted")] [],
         .elem 4 "div" [("contenteditable", "true")] []]]],
   5, []⟩

/-- A ChatGPT page whose document holds two elements with the id of the
trigger next to the prompt textarea. -/
def twoTriggersPage : Page :=
  ⟨"chatgpt.com",
   .elem 0 "html" [] [
     .elem 1 "body" [] [
       .elem 2 "form" [] [
         .elem 3 "textarea" [("placeholder", "Send a message")] [],
         .elem 4 "button" [("id", "po-optimize-button")] [],
         .elem 5 "button" [("id", "po-optimize-button")] []]]],
   6, []⟩

/-! ## `content.js`: the submit handler of the overlay form -/

/-- The controls of the overlay that the submit handler writes: the submit
button (`disabled`, `textContent`), the output area (`value`), the error area
and the copy button (`disabled`). -/
structure OverlayView where
  submitDisabled : Bool
  submitText : String
  outputValue : String
  errorMsg : ErrorDisplay
  copyDisabled : Bool
deriving DecidableEq, Repr

/-- One run of the submit handler: the messages it passed to
`chrome.runtime.sendMessage`, the view while the reply was awaited (`none` when
nothing was sent) and the view when the handler has finished. -/
structure SubmitRun where
  sent : List Message
  waiting : Option OverlayView
  final : OverlayView

/-- The `submit` listener of the overlay form. `sendMessage` is the answer of
`chrome.runtime.sendMessage`: a rejection, or the reply (`none` for
`undefined`). `providerValue` is `providerSelect.value` and `inputValue` is
`input.value`. The handler first overwrites every control it writes, so its
result does not depend on the view before the submit. -/
def submitHandler (sendMessage : Message → Except JsError (Option Reply))
    (providerValue inputValue : String) : SubmitRun :=
  let start : OverlayView := ⟨true, "Optimizing…", "", .plain "", true⟩
  let provider := providerValue
  let userPrompt := jsTrim inputValue
  if !(userPrompt != "") then
    ⟨[], none, ⟨false, "Optimize Prompt", "", .plain "Please enter a prompt.", true⟩⟩
  else
    let message := Message.optimizePrompt (some ⟨some provider, some userPrompt⟩)
    match sendMessage message with
    | .ok (some (.success optimized)) =>
      ⟨[message], some start,
        ⟨false, "Optimize Prompt", if optimized != "" then optimized else "(No content)",
          .plain "", !(optimized != "")⟩⟩
    | .ok response =>
      ⟨[message], some start, ⟨false, "Optimize Prompt", "", renderFailure response, true⟩⟩
    | .error err =>
      let emsg := "Error: " ++ errorText err
      ⟨[message], some start,
        ⟨false, "Optimize Prompt", "",
          if needsApiKeyHint (some emsg) then .withShortcut (escapeHTML emsg ++ HINT_MARKUP)
          else .plain emsg,
          true⟩⟩

/-! ## Vocabulary of the specification -/

/-- The four provider identifiers of the specification. -/
inductive ProviderId where
  | openai : ProviderId
  | gemini : ProviderId
  | claude : ProviderId
  | openrouter : ProviderId
deriving DecidableEq, Repr

/-- The identifier string of a provider, as in the table `PROVIDERS`. -/
def ProviderId.id : ProviderId → String
  | .openai => PROVIDERS.OPENAI
  | .gemini => PROVIDERS.GEMINI
  | .claude => PROVIDERS.CLAUDE
  | .openrouter => PROVIDERS.OPENROUTER

/-- The name of a provider in the messages of the dispatcher. -/
def ProviderId.label : ProviderId → String
  | .openai => "OpenAI"
  | .gemini => "Gemini"
  | .claude => "Claude"
  | .openrouter => "Openrouter"

/-- The stored credential of a provider. -/
def Storage.keyFor (storage : Storage) : ProviderId → Option String
  | .openai => storage.po_openai_key
  | .gemini => storage.po_gemini_key
  | .claude => storage.po_claude_key
  | .openrouter => storage.po_openrouter_key

/-- The adapter of a provider. -/
def adapter : ProviderId → Env → String → String → Run
  | .openai => callOpenAI
  | .gemini => callGemini
  | .claude => callClaude
  | .openrouter => callOpenrouter

/-- The request that the adapter of a provider hands to `fetch`. -/
def vendorRequest : ProviderId → Env → String → String → HttpRequest
  | .openai => fun _ => openaiRequest
  | .gemini => geminiRequest
  | .claude => fun _ => claudeRequest
  | .openrouter => fun _ => openrouterRequest

/-- The effective provider in the words of the specification: the value of the
request if present, else the stored provider if present, else `openai`. -/
def resolveProviderSpec (provider stored : Option String) : String :=
  match provider, stored with
  | some p, _ => p
  | none, some s => s
  | none, none => "openai"

/-- The meta-prompt in the words of the specification: the trimmed custom
prompt if it is set and non-empty after trimming, else the default. -/
def metaPromptSpec (storage : Storage) : String :=
  match storage.po_master_prompt with
  | some m => if jsTrim m = "" then DEFAULT_META_PROMPT else jsTrim m
  | none => DEFAULT_META_PROMPT

/-- The first `content` of a message with role `user` in a `messages` array. -/
def userContent : List Json → JsValue
  | [] => none
  | m :: rest =>
    match getProp (some m) "role" with
    | some (.str "user") => getProp (some m) "content"
    | _ => userContent rest

/-- The user text of a vendor request body: `messages[role=user].content` for
openai, claude and openrouter, `contents[0].parts[0].text` for gemini. -/
def userMessageText (p : ProviderId) (body : Json) : JsValue :=
  match p with
  | .gemini =>
    getProp (getIndex0 (getProp (getIndex0 (getProp (some body) "contents")) "parts")) "text"
  | _ =>
    match getProp (some body) "messages" with
    | some (.arr items) => userContent items
    | _ => none

/-- The text path of a vendor response in the words of the specification. -/
def textPath (p : ProviderId) (data : Json) : JsValue :=
  match p with
  | .openai | .openrouter =>
    getProp (getProp (getIndex0 (getProp (some data) "choices")) "message") "content"
  | .gemini =>
    getProp (getIndex0 (getProp (getProp (getIndex0
      (getProp (some data) "candidates")) "content") "parts")) "text"
  | .claude => getProp (some data) "content"

/-- The second path that `callClaude` reads when the first holds nothing. -/
def fallbackPath (p : ProviderId) (data : Json) : JsValue :=
  match p with
  | .claude => getProp (getProp (getIndex0 (getProp (some data) "choices")) "message") "content"
  | _ => none

/-- The text `text` contains `phrase`, letters compared without regard to
ASCII case. -/
def ContainsIgnoringCase (phrase text : String) : Prop :=
  ∃ pre mid post : List Char,
    text.data = pre ++ mid ++ post ∧ mid.map foldCase = phrase.data.map foldCase

/-- A string has no leading or trailing white space: neither its first nor
its last character is white space. -/
def NoOuterWhiteSpace (s : String) : Prop :=
  (∀ c, s.data.head? = some c → isJsWhiteSpace c = false) ∧
  (∀ c, s.data.getLast? = some c → isJsWhiteSpace c = false)

/-- The five entities that `escapeHTML` writes. -/
def ENTITIES : List String :=
  ["&amp;", "&lt;", "&gt;", "&quot;", "&#039;"]

/-- The escaping of one character: its entity, or the character itself. -/
def escapeChar (c : Char) : List Char :=
  if c = '&' then "&amp;".data
  else if c = '<' then "&lt;".data
  else if c = '>' then "&gt;".data
  else if c = Char.ofNat 34 then "&quot;".data
  else if c = Char.ofNat 39 then "&#039;".data
  else [c]

/-- Every character escaped on its own, once. -/
def escapeEach : List Char → List Char
  | [] => []
  | c :: cs => escapeChar c ++ escapeEach cs

/-- The entity that stands at the start of a text, if any: the character it
stands for and the number of characters that follow its `&`. -/
def entityAt (text : List Char) : Option (Char × Nat) :=
  if startsWithExact "&amp;".data text then some ('&', 4)
  else if startsWithExact "&lt;".data text then some ('<', 3)
  else if startsWithExact "&gt;".data text then some ('>', 3)
  else if startsWithExact "&quot;".data text then some (Char.ofNat 34, 5)
  else if startsWithExact "&#039;".data text then some (Char.ofNat 39, 5)
  else none

/-- One pass from left to right that replaces each of the five entities by the
character it stands for; `skip` counts the characters of the entity just
replaced that are still to be passed over. -/
def unescapeFrom : Nat → List Char → List Char
  | _, [] => []
  | skip + 1, _ :: rest => unescapeFrom skip rest
  | 0, c :: rest =>
    match entityAt (c :: rest) with
    | some (ch, skip) => ch :: unescapeFrom skip rest
    | none => c :: unescapeFrom 0 rest

/-- The entities of a string replaced by the characters they stand for. -/
def unescapeHTML (s : String) : String :=
  ⟨unescapeFrom 0 s.data⟩

/-- A channel on which the dispatcher of `background.js` answers. -/
def dispatcherChannel (env : Env) (storage : Storage) (message : Message) :
    Except JsError (Option Reply) :=
  .ok (onMessage env storage message).2

/-! ## Sample environments -/

/-- An environment whose `fetch` answers every request with `res`. -/
def constEnv (res : Response) : Env :=
  ⟨fun _ => .response res, fun _ => "", fun s => s⟩

/-- A storage snapshot with nothing stored. -/
def emptyStorage : Storage :=
  ⟨none, none, none, none, none, none⟩

/-- A success response whose body parses to `data`. -/
def okResponse (data : Json) : Response :=
  ⟨true, 200, none, .ok data⟩

/-- A Gemini body with one candidate whose first part holds the text `s`. -/
def geminiAnswer (s : String) : Json :=
  .obj [("candidates", .arr [.obj [("content", .obj [("parts", .arr [.obj [("text", .str s)]])])]])]

/-- A chat-completion body with one choice whose message content is `s`. -/
def chatCompletion (s : String) : Json :=
  .obj [("choices", .arr [.obj [("message", .obj [("content", .str s)])]])]

/-- One character of a string inside `JSON.stringify`: the quote and the
backslash are escaped, the control characters are written as `\b`, `\t`, `\n`,
`\f`, `\r` or `\u00XX`. -/
def quoteJsonChar (c : Char) : List Char :=
  let hex (n : Nat) : Char := if n < 10 then Char.ofNat (48 + n) else Char.ofNat (87 + n)
  if c.toNat = 34 then [Char.ofNat 92, Char.ofNat 34]
  else if c.toNat = 92 then [Char.ofNat 92, Char.ofNat 92]
  else if c.toNat = 8 then [Char.ofNat 92, 'b']
  else if c.toNat = 9 then [Char.ofNat 92, 't']
  else if c.toNat = 10 then [Char.ofNat 92, 'n']
  else if c.toNat = 12 then [Char.ofNat 92, 'f']
  else if c.toNat = 13 then [Char.ofNat 92, 'r']
  else if c.toNat < 32 then [Char.ofNat 92, 'u', '0', '0', hex (c.toNat / 16), hex (c.toNat % 16)]
  else [c]

/-- A string as `JSON.stringify` writes it. -/
def quoteJson (s : String) : String :=
  ⟨Char.ofNat 34 :: (s.data.map quoteJsonChar).flatten ++ [Char.ofNat 34]⟩

mutual
/-- The text that `JSON.stringify` gives for a parsed JSON value, the fields of
an object in the order in which they are listed. -/
def jsonStringify : Json → String
  | .null => "null"
  | .bool b => if b then "true" else "false"
  | .num rendering => rendering
  | .str s => quoteJson s
  | .arr items => "[" ++ ",".intercalate (jsonStringifyItems items) ++ "]"
  | .obj fields => "\x7b" ++ ",".intercalate (jsonStringifyFields fields) ++ "\x7d"
/-- The texts of the items of an array. -/
def jsonStringifyItems : List Json → List String
  | [] => []
  | item :: rest => jsonStringify item :: jsonStringifyItems rest
/-- The texts of the fields of an object. -/
def jsonStringifyFields : List (String × Json) → List String
  | [] => []
  | (key, value) :: rest =>
    (quoteJson key ++ ":" ++ jsonStringify value) :: jsonStringifyFields rest
end

/-- An environment whose `fetch` answers every request with `res` and whose
`JSON.stringify` is `jsonStringify`. -/
def stringifyEnv (res : Response) : Env :=
  ⟨fun _ => .response res, jsonStringify, fun s => s⟩

/-- A body of the shape of the Anthropic Messages API: `content` is an array
with one text block that holds `s`. -/
def anthropicAnswer (s : String) : Json :=
  .obj [("content", .arr [.obj [("type", .str "text"), ("text", .str s)]])]

/-- A chat-completion body with one choice whose message content is the value
`v`. -/
def chatCompletionValue (v : Json) : Json :=
  .obj [("choices", .arr [.obj [("message", .obj [("content", v)])]])]

/-! ## Helper lemmas -/

theorem truthyStr_false_iff (o : Option String) :
    truthyStr o = false ↔ o = none ∨ o = some "" := by
  cases o with
  | none => simp [truthyStr]
  | some s => simp [truthyStr]

theorem jsTrim_empty : jsTrim "" = "" := by decide

theorem metaPromptOf_eq_spec (storage : Storage) :
    metaPromptOf storage = metaPromptSpec storage := by
  unfold metaPromptOf metaPromptSpec
  cases storage.po_master_prompt with
  | none => rfl
  | some m =>
    by_cases hm : m = ""
    · subst hm
      simp [jsTrim_empty]
    · by_cases ht : jsTrim m = "" <;> simp [hm, ht]

theorem effectiveProvider_of_spec (provider stored : Option String) (p : ProviderId)
    (h : resolveProviderSpec provider stored = p.id) :
    effectiveProvider provider stored = p.id := by
  have hne : p.id ≠ "" := by cases p <;> decide
  unfold resolveProviderSpec at h
  unfold effectiveProvider
  cases provider with
  | some q =>
    simp only at h
    subst h
    simp [hne]
  | none =>
    cases stored with
    | some q =>
      simp only at h
      subst h
      simp [hne]
    | none => simpa [PROVIDERS.OPENAI] using h

/-- The dispatcher on a request that passed validation with a supported
provider: the credential check followed by the adapter. -/
theorem handleOptimize_dispatch (env : Env) (storage : Storage) (provider : Option String)
    (u : String) (p : ProviderId) (hu : u ≠ "")
    (hp : effectiveProvider provider storage.po_provider = p.id) :
    handleOptimize env storage (some ⟨provider, some u⟩) =
      match storage.keyFor p with
      | some key =>
        if key = "" then ⟨[], .error (mkError (p.label ++ " API key not set. Add it in Options."))⟩
        else adapter p env key (metaPromptOf storage ++ u)
      | none => ⟨[], .error (mkError (p.label ++ " API key not set. Add it in Options."))⟩ := by
  unfold handleOptimize
  simp only [Option.bind, hu, hp]
  cases p <;>
    simp [ProviderId.id, PROVIDERS.OPENAI, PROVIDERS.GEMINI, PROVIDERS.CLAUDE,
      PROVIDERS.OPENROUTER, Storage.keyFor, ProviderId.label, adapter] <;>
    split <;> simp_all

/-- Every adapter issues exactly one request, whatever the vendor answers. -/
theorem adapter_calls (p : ProviderId) (env : Env) (key prompt : String) :
    (adapter p env key prompt).calls = [vendorRequest p env key prompt] := by
  cases p <;>
    simp only [adapter, vendorRequest, callOpenAI, callGemini, callClaude, callOpenrouter] <;>
    repeat (first | rfl | split)

/-- The user message of every vendor request is the prompt handed to the adapter. -/
theorem vendorRequest_userMessageText (p : ProviderId) (env : Env) (key prompt : String) :
    userMessageText p (vendorRequest p env key prompt).body = some (.str prompt) := by
  cases p <;> rfl

/-- The matcher `matchesAt` finds exactly the texts that start with a word equal
to the pattern up to ASCII case. -/
theorem matchesAt_iff (pat text : List Char) :
    matchesAt pat text = true ↔
      ∃ mid post, text = mid ++ post ∧ mid.map foldCase = pat.map foldCase := by
  induction pat generalizing text with
  | nil =>
    simp only [matchesAt, List.map_nil, List.map_eq_nil_iff, true_iff]
    exact ⟨[], text, rfl, rfl⟩
  | cons p ps ih =>
    cases text with
    | nil =>
      simp only [matchesAt, Bool.false_eq_true, false_iff]
      rintro ⟨mid, post, h, hm⟩
      have : mid = [] := by
        cases mid with
        | nil => rfl
        | cons a as => simp at h
      subst this
      simp at hm
    | cons c cs =>
      simp only [matchesAt, Bool.and_eq_true, beq_iff_eq, ih]
      constructor
      · rintro ⟨hpc, mid, post, h, hm⟩
        exact ⟨c :: mid, post, by simp [h], by simp [hm, hpc]⟩
      · rintro ⟨mid, post, h, hm⟩
        cases mid with
        | nil => simp at hm
        | cons a as =>
          simp only [List.cons_append, List.cons.injEq] at h
          simp only [List.map_cons, List.cons.injEq] at hm
          obtain ⟨rfl, h⟩ := h
          exact ⟨hm.1.symm, as, post, h, hm.2⟩

/-- The matcher `occursCI` finds exactly the texts that contain a word equal to
the pattern up to ASCII case. -/
theorem occursCI_iff (pat text : List Char) :
    occursCI pat text = true ↔
      ∃ pre mid post, text = pre ++ mid ++ post ∧ mid.map foldCase = pat.map foldCase := by
  induction text with
  | nil =>
    simp only [occursCI, matchesAt_iff]
    constructor
    · rintro ⟨mid, post, h, hm⟩
      exact ⟨[], mid, post, by simpa using h, hm⟩
    · rintro ⟨pre, mid, post, h, hm⟩
      have h1 : pre = [] ∧ mid = [] ∧ post = [] := by
        simpa [List.append_eq_nil, and_assoc] using h.symm
      obtain ⟨rfl, rfl, rfl⟩ := h1
      exact ⟨[], [], rfl, hm⟩
  | cons c cs ih =>
    simp only [occursCI, Bool.or_eq_true, matchesAt_iff, ih]
    constructor
    · rintro (⟨mid, post, h, hm⟩ | ⟨pre, mid, post, h, hm⟩)
      · exact ⟨[], mid, post, by simpa using h, hm⟩
      · exact ⟨c :: pre, mid, post, by simp [h], hm⟩
    · rintro ⟨pre, mid, post, h, hm⟩
      cases pre with
      | nil => exact Or.inl ⟨mid, post, by simpa using h, hm⟩
      | cons a as =>
        simp only [List.cons_append, List.cons.injEq] at h
        exact Or.inr ⟨as, mid, post, by simpa using h.2, hm⟩

theorem regexTestCI_single_iff (phrase text : String) :
    regexTestCI [phrase] text = true ↔ ContainsIgnoringCase phrase text := by
  simp [regexTestCI, ContainsIgnoringCase, occursCI_iff]

/-- The privacy message is not an instance of the generic OpenRouter message. -/
theorem privacy_message_ne_generic (status text : String) :
    OPENROUTER_PRIVACY_MESSAGE ≠ "OpenRouter error " ++ status ++ ": " ++ text := by
  intro h
  have h2 : OPENROUTER_PRIVACY_MESSAGE.data =
      "OpenRouter error ".data ++ (status.data ++ (": ".data ++ text.data)) := by
    rw [h]
    simp only [String.data_append, List.append_assoc]
  have h3 : OPENROUTER_PRIVACY_MESSAGE.data.take 17 = "OpenRouter error ".data := by
    rw [h2]
    exact List.take_left' rfl
  exact absurd h3 (by decide)

/-! ## The dispatcher: validation, credentials, composition -/

/-- C1 (amended): for every payload whose `userPrompt` is absent or the empty
string, `handleOptimize` fails with `Missing user prompt` and makes no outbound
HTTP call, for every provider value and every storage content; the reply is the
failure carrying that message. -/
theorem C1_missing_prompt_rejected (env : Env) (storage : Storage) (payload : Option Payload)
    (h : truthyStr (payload.bind Payload.userPrompt) = false) :
    handleOptimize env storage payload = ⟨[], .error (mkError "Missing user prompt")⟩ ∧
    onMessage env storage (.optimizePrompt payload) =
      ([], some (.failure "Missing user prompt")) := by
  have h1 : handleOptimize env storage payload =
      ⟨[], .error (mkError "Missing user prompt")⟩ := by
    unfold handleOptimize
    rcases (truthyStr_false_iff _).1 h with h0 | h0 <;> simp [h0]
  refine ⟨h1, ?_⟩
  simp only [onMessage, onOptimizePrompt, h1]
  rfl

/-- C1 (witness): the empty prompt with provider `gemini` and a stored key. -/
theorem C1_missing_prompt_rejected_witness :
    handleOptimize (constEnv (okResponse (chatCompletion "hi")))
        ⟨none, none, none, some "k", none, none⟩ (some ⟨some "gemini", some ""⟩) =
      ⟨[], .error (mkError "Missing user prompt")⟩ ∧
    onMessage (constEnv (okResponse (chatCompletion "hi")))
        ⟨none, none, none, some "k", none, none⟩
        (.optimizePrompt (some ⟨some "gemini", some ""⟩)) =
      ([], some (.failure "Missing user prompt")) :=
  C1_missing_prompt_rejected _ _ _ (by decide)

/-- C1 (counterexample): a prompt of two blanks is white space only, yet
`handleOptimize` does not fail with `Missing user prompt`: with an OpenAI key
stored it issues one HTTP call, whose user message is the default meta-prompt
followed by the two blanks, and it returns the vendor text. -/
theorem C1_whitespace_prompt_reaches_vendor :
    jsTrim "  " = "" ∧
    (handleOptimize (constEnv (okResponse (chatCompletion "hi")))
        ⟨none, none, some "k", none, none, none⟩ (some ⟨none, some "  "⟩)).result = .ok "hi" ∧
    (handleOptimize (constEnv (okResponse (chatCompletion "hi")))
        ⟨none, none, some "k", none, none, none⟩ (some ⟨none, some "  "⟩)).calls =
      [openaiRequest "k" (DEFAULT_META_PROMPT ++ "  ")] :=
  ⟨by decide, rfl, rfl⟩

/-- C2: for every non-empty `userPrompt` and each provider `p`, when the
effective provider is `p` (resolved as the specification words it, or by the
expression of the code) and the stored key of `p` is absent or empty, the reply
to `OPTIMIZE_PROMPT` is the failure `<Name> API key not set. Add it in Options.`
with the name of `p`, whatever else is stored, and no HTTP call is made. -/
theorem C2_missing_credential (env : Env) (storage : Storage) (provider : Option String)
    (u : String) (p : ProviderId) (hu : u ≠ "")
    (hp : resolveProviderSpec provider storage.po_provider = p.id ∨
      effectiveProvider provider storage.po_provider = p.id)
    (hk : storage.keyFor p = none ∨ storage.keyFor p = some "") :
    onMessage env storage (.optimizePrompt (some ⟨provider, some u⟩)) =
      ([], some (.failure (p.label ++ " API key not set. Add it in Options."))) := by
  have hp2 : effectiveProvider provider storage.po_provider = p.id :=
    hp.elim (effectiveProvider_of_spec _ _ _) id
  have hne : p.label ++ " API key not set. Add it in Options." ≠ "" := by
    cases p <;> decide
  simp only [onMessage, onOptimizePrompt, handleOptimize_dispatch env storage provider u p hu hp2]
  rcases hk with hk | hk <;> simp [hk, errorText, mkError, hne]

/-- C2 (witness): provider `claude` requested, no Claude key stored, keys of
two other providers stored. -/
theorem C2_missing_credential_witness :
    onMessage (constEnv (okResponse (chatCompletion "hi")))
        ⟨none, some "openai", some "k1", some "k2", none, none⟩
        (.optimizePrompt (some ⟨some "claude", some "write a poem"⟩)) =
      ([], some (.failure "Claude API key not set. Add it in Options.")) :=
  C2_missing_credential _ ⟨none, some "openai", some "k1", some "k2", none, none⟩
    (some "claude") "write a poem" .claude (by decide) (Or.inl rfl) (Or.inl rfl)

/-- C3: for every request that reaches a provider adapter (non-empty prompt,
effective provider `p`, non-empty stored key), exactly one HTTP request is
issued and the text of its user message is `metaPrompt ++ userPrompt`, where
`metaPrompt` is the trimmed custom prompt if set and non-empty after trimming
and the default otherwise. -/
theorem C3_concatenation (env : Env) (storage : Storage) (provider : Option String)
    (u key : String) (p : ProviderId) (hu : u ≠ "")
    (hp : effectiveProvider provider storage.po_provider = p.id)
    (hk : storage.keyFor p = some key) (hkey : key ≠ "") :
    ∃ req, (handleOptimize env storage (some ⟨provider, some u⟩)).calls = [req] ∧
      userMessageText p req.body = some (.str (metaPromptSpec storage ++ u)) := by
  refine ⟨vendorRequest p env key (metaPromptSpec storage ++ u), ?_, ?_⟩
  · rw [handleOptimize_dispatch env storage provider u p hu hp]
    simp only [hk, hkey, if_false, metaPromptOf_eq_spec]
    exact adapter_calls _ _ _ _
  · exact vendorRequest_userMessageText _ _ _ _

/-- C3 (witness): provider `gemini` with a custom meta-prompt that carries
surrounding white space. -/
theorem C3_concatenation_witness :
    ∃ req, (handleOptimize (constEnv (okResponse (chatCompletion "hi")))
        ⟨some "  Rewrite: ", none, none, some "k", none, none⟩
        (some ⟨some "gemini", some " a poem "⟩)).calls = [req] ∧
      userMessageText .gemini req.body = some (.str ("Rewrite:" ++ " a poem ")) :=
  C3_concatenation _ ⟨some "  Rewrite: ", none, none, some "k", none, none⟩
    (some "gemini") " a poem " "k" .gemini (by decide) rfl rfl (by decide)

/-! ## The adapters: reading the vendor response -/

/-- What an adapter returns on a success response whose body parses to `data`:
the text at its path when that is a non-empty string. -/
theorem adapter_success (p : ProviderId) (env : Env) (key prompt : String)
    (res : Response) (data : Json) (s : String)
    (hres : env.fetch (vendorRequest p env key prompt) = .response res)
    (hok : res.ok = true) (hjson : res.json = .ok data)
    (hpath : textPath p data = some (.str s)) (hs : s ≠ "") :
    adapter p env key prompt = ⟨[vendorRequest p env key prompt], .ok (jsTrim s)⟩ := by
  cases p <;>
    simp only [vendorRequest] at hres <;>
    simp only [textPath] at hpath <;>
    simp [adapter, vendorRequest, callOpenAI, callGemini, callClaude, callOpenrouter, hres, hok,
      hjson, hpath, jsOr, jsTruthy, callTrim, hs]

/-- What an adapter returns on a success response whose body parses to `data`
when nothing truthy stands at the paths it reads. -/
theorem adapter_empty (p : ProviderId) (env : Env) (key prompt : String)
    (res : Response) (data : Json)
    (hres : env.fetch (vendorRequest p env key prompt) = .response res)
    (hok : res.ok = true) (hjson : res.json = .ok data)
    (h1 : jsTruthy (textPath p data) = false) (h2 : jsTruthy (fallbackPath p data) = false) :
    adapter p env key prompt =
      ⟨[vendorRequest p env key prompt], .error (mkError ("Empty response from " ++ p.label))⟩ := by
  cases p <;>
    simp only [vendorRequest] at hres <;>
    simp only [textPath] at h1 <;>
    simp only [fallbackPath] at h2 <;>
    simp [adapter, vendorRequest, callOpenAI, callGemini, callClaude, callOpenrouter, hres, hok,
      hjson, jsOr, h1, h2, ProviderId.label]

/-- What `callClaude` returns on a success response whose body parses to `data`
when the value it reads is truthy and not a string: `JSON.stringify` of it. -/
theorem callClaude_non_string (env : Env) (key prompt : String) (res : Response)
    (data j : Json) (hres : env.fetch (claudeRequest key prompt) = .response res)
    (hok : res.ok = true) (hjson : res.json = .ok data)
    (hpath : getProp (some data) "content" = some j) (hj : jsTruthy (some j) = true)
    (hns : ∀ s, j ≠ .str s) :
    callClaude env key prompt = ⟨[claudeRequest key prompt], .ok (env.stringify j)⟩ := by
  cases j with
  | str s => exact absurd rfl (hns s)
  | null => simp [jsTruthy] at hj
  | bool b => simp [callClaude, hres, hok, hjson, hpath, jsOr, hj]
  | num r => simp [callClaude, hres, hok, hjson, hpath, jsOr, hj]
  | arr items => simp [callClaude, hres, hok, hjson, hpath, jsOr, hj]
  | obj fields => simp [callClaude, hres, hok, hjson, hpath, jsOr, hj]

/-- C4 (amended): for each of the four adapters, given any credential and
prompt, when the vendor answers with a success status and a non-empty string
`s` at the text path of the adapter, the adapter returns exactly `s` trimmed,
and when the dispatcher reaches that adapter (non-empty prompt, stored
non-empty key) the reply is the success carrying that trimmed text; when the
value at the path of `callClaude` is non-empty and not a string, `callClaude`
returns `JSON.stringify` of that value, as it is. -/
theorem C4_success_text (p : ProviderId) (env : Env) (key prompt : String)
    (res : Response) (data : Json)
    (hres : env.fetch (vendorRequest p env key prompt) = .response res)
    (hok : res.ok = true) (hjson : res.json = .ok data) :
    (∀ s : String, textPath p data = some (.str s) → s ≠ "" →
      (adapter p env key prompt).result = .ok (jsTrim s) ∧
      ∀ (storage : Storage) (provider : Option String) (u : String),
        u ≠ "" → key ≠ "" → effectiveProvider provider storage.po_provider = p.id →
        storage.keyFor p = some key → metaPromptOf storage ++ u = prompt →
        onMessage env storage (.optimizePrompt (some ⟨provider, some u⟩)) =
          ([vendorRequest p env key prompt], some (.success (jsTrim s)))) ∧
    (∀ j : Json, p = .claude → textPath p data = some j → jsTruthy (some j) = true →
      (∀ s, j ≠ .str s) → (adapter p env key prompt).result = .ok (env.stringify j)) := by
  constructor
  · intro s hpath hs
    have h := adapter_success p env key prompt res data s hres hok hjson hpath hs
    refine ⟨by rw [h], ?_⟩
    intro storage provider u hu hkey hp hk hprompt
    simp only [onMessage, onOptimizePrompt,
      handleOptimize_dispatch env storage provider u p hu hp, hk, hkey, if_false, hprompt, h]
  · intro j hp hpath hj hns
    subst hp
    simp only [adapter]
    rw [callClaude_non_string env key prompt res data j hres hok hjson hpath hj hns]

/-- C4 (witness): the Gemini scenario of the specification: provider `gemini`,
prompt `write a poem`, no custom meta-prompt, and the vendor text surrounded by
white space; and `callClaude` on a body whose `content` is the number 42. -/
theorem C4_success_text_witness :
    (adapter .gemini (constEnv (okResponse (geminiAnswer " A gentle poem about...\n"))) "k"
        (DEFAULT_META_PROMPT ++ "write a poem")).result = .ok "A gentle poem about..." ∧
    onMessage (constEnv (okResponse (geminiAnswer " A gentle poem about...\n")))
        ⟨none, none, none, some "k", none, none⟩
        (.optimizePrompt (some ⟨some "gemini", some "write a poem"⟩)) =
      ([geminiRequest (constEnv (okResponse (geminiAnswer " A gentle poem about...\n"))) "k"
          (DEFAULT_META_PROMPT ++ "write a poem")],
        some (.success "A gentle poem about...")) ∧
    (adapter .claude (stringifyEnv (okResponse (.obj [("content", .num "42")]))) "k" "p").result =
      .ok "42" :=
  ⟨((C4_success_text .gemini (constEnv (okResponse (geminiAnswer " A gentle poem about...\n")))
      "k" (DEFAULT_META_PROMPT ++ "write a poem") (okResponse _) _ rfl rfl rfl).1
      " A gentle poem about...\n" rfl (by decide)).1,
   ((C4_success_text .gemini (constEnv (okResponse (geminiAnswer " A gentle poem about...\n")))
      "k" (DEFAULT_META_PROMPT ++ "write a poem") (okResponse _) _ rfl rfl rfl).1
      " A gentle poem about...\n" rfl (by decide)).2 ⟨none, none, none, some "k", none, none⟩
      (some "gemini") "write a poem" (by decide) (by decide) rfl rfl rfl,
   (C4_success_text .claude (stringifyEnv (okResponse (.obj [("content", .num "42")]))) "k" "p"
      (okResponse _) _ rfl rfl rfl).2 (.num "42") rfl rfl rfl (fun s h => by cases h)⟩

/-- C4 (counterexample): a success response of the shape of the Anthropic
Messages API, whose `content` is an array with one text block holding ` hi `.
The value at the text path of `callClaude` is non-empty, yet the adapter does
not return a trimmed text: it returns the JSON text of the array, and that is
the `optimized` field of the reply. With the number 42 at the text path of
`callOpenAI` the adapter throws and the reply is a failure. -/
theorem C4_non_text_value :
    jsTruthy (textPath .claude (anthropicAnswer " hi ")) = true ∧
    (callClaude (stringifyEnv (okResponse (anthropicAnswer " hi "))) "k" "p").result =
      .ok "[\x7b\"type\":\"text\",\"text\":\" hi \"\x7d]" ∧
    (onMessage (stringifyEnv (okResponse (anthropicAnswer " hi ")))
        ⟨none, none, none, none, some "k", none⟩
        (.optimizePrompt (some ⟨some "claude", some "x"⟩))).2 =
      some (.success "[\x7b\"type\":\"text\",\"text\":\" hi \"\x7d]") ∧
    jsTruthy (textPath .openai (chatCompletionValue (.num "42"))) = true ∧
    (callOpenAI (stringifyEnv (okResponse (chatCompletionValue (.num "42")))) "k" "p").result =
      .error ⟨"TypeError", "content.trim is not a function"⟩ ∧
    (onMessage (stringifyEnv (okResponse (chatCompletionValue (.num "42"))))
        ⟨none, none, some "k", none, none, none⟩
        (.optimizePrompt (some ⟨some "openai", some "x"⟩))).2 =
      some (.failure "content.trim is not a function") :=
  ⟨rfl, rfl, rfl, rfl, rfl, rfl⟩

/-- C5 (amended): for each of the four adapters, when the vendor answers with a
success status and nothing truthy (a missing value, `null`, the empty string)
stands at the text path of the adapter, nor, for `callClaude`, at its second
path `choices[0].message.content`, the adapter fails with
`Empty response from <Provider>` and returns no success value. -/
theorem C5_empty_response (p : ProviderId) (env : Env) (key prompt : String)
    (res : Response) (data : Json)
    (hres : env.fetch (vendorRequest p env key prompt) = .response res)
    (hok : res.ok = true) (hjson : res.json = .ok data)
    (h1 : jsTruthy (textPath p data) = false) (h2 : jsTruthy (fallbackPath p data) = false) :
    (adapter p env key prompt).result = .error (mkError ("Empty response from " ++ p.label)) ∧
    ∀ t, (adapter p env key prompt).result ≠ .ok t := by
  have h := adapter_empty p env key prompt res data hres hok hjson h1 h2
  rw [h]
  exact ⟨rfl, fun t ht => by cases ht⟩

/-- C5 (witness): `callClaude` on a success response whose body holds an empty
`content` and no `choices`. -/
theorem C5_empty_response_witness :
    (adapter .claude (constEnv (okResponse (.obj [("content", .str "")]))) "k" "p").result =
      .error (mkError ("Empty response from " ++ ProviderId.claude.label)) ∧
    ∀ t, (adapter .claude (constEnv (okResponse (.obj [("content", .str "")]))) "k" "p").result
      ≠ .ok t :=
  C5_empty_response .claude _ "k" "p" (okResponse (.obj [("content", .str "")])) _
    rfl rfl rfl rfl rfl

/-- C5 (counterexample): on a success response without `content` the text path
of `callClaude` holds nothing, yet the adapter returns a success value, read
from `choices[0].message.content`. -/
theorem C5_claude_reads_second_path :
    textPath .claude (chatCompletion "hi") = none ∧
    (callClaude (constEnv (okResponse (chatCompletion "hi"))) "k" "p").result = .ok "hi" :=
  ⟨rfl, rfl⟩

/-- C6: for every non-success response to `callOpenrouter` with status `s` and
body text `b` (`<no body>` when the body cannot be read), the adapter fails
with the privacy-setting message if and only if `s = 404` and `b` contains
`No endpoints found matching your data policy` up to ASCII case; in every other
case it fails with `OpenRouter error <s>: <b>`. -/
theorem C6_openrouter_failure (env : Env) (key prompt : String) (res : Response)
    (hres : env.fetch (openrouterRequest key prompt) = .response res)
    (hok : res.ok = false) :
    ((callOpenrouter env key prompt).result = .error (mkError OPENROUTER_PRIVACY_MESSAGE) ↔
      (res.status = 404 ∧ ContainsIgnoringCase "No endpoints found matching your data policy"
        (res.text.getD "<no body>"))) ∧
    (¬ (res.status = 404 ∧ ContainsIgnoringCase "No endpoints found matching your data policy"
        (res.text.getD "<no body>")) →
      (callOpenrouter env key prompt).result =
        .error (mkError ("OpenRouter error " ++ toString res.status ++ ": " ++
          res.text.getD "<no body>"))) := by
  have hst : safeText res = res.text.getD "<no body>" := by
    unfold safeText
    cases res.text <;> rfl
  by_cases hc : res.status = 404 ∧
      ContainsIgnoringCase "No endpoints found matching your data policy"
        (res.text.getD "<no body>")
  · have hre := (regexTestCI_single_iff _ _).2 hc.2
    have : (callOpenrouter env key prompt).result = .error (mkError OPENROUTER_PRIVACY_MESSAGE) := by
      simp [callOpenrouter, hres, hok, hst, hc.1, hre]
    exact ⟨⟨fun _ => hc, fun _ => this⟩, fun h => absurd hc h⟩
  · have hb : (res.status == 404 &&
        regexTestCI ["No endpoints found matching your data policy"]
          (res.text.getD "<no body>")) = false := by
      rw [Bool.eq_false_iff]
      intro h
      simp only [Bool.and_eq_true, beq_iff_eq, regexTestCI_single_iff] at h
      exact hc h
    have : (callOpenrouter env key prompt).result =
        .error (mkError ("OpenRouter error " ++ toString res.status ++ ": " ++
          res.text.getD "<no body>")) := by
      simp [callOpenrouter, hres, hok, hst, hb]
    refine ⟨⟨fun h => ?_, fun h => absurd h hc⟩, fun _ => this⟩
    rw [this] at h
    simp only [mkError, Except.error.injEq, JsError.mk.injEq, true_and] at h
    exact absurd h.symm (privacy_message_ne_generic _ _)

/-- C6 (witness): a 404 whose body carries the phrase in another case yields
the privacy message; a 500 whose body cannot be read yields the generic
message. -/
theorem C6_openrouter_failure_witness :
    (callOpenrouter (constEnv ⟨false, 404,
        some "no ENDPOINTS found matching your data policy.", .ok .null⟩) "k" "p").result =
      .error (mkError OPENROUTER_PRIVACY_MESSAGE) ∧
    (callOpenrouter (constEnv ⟨false, 500, none, .ok .null⟩) "k" "p").result =
      .error (mkError "OpenRouter error 500: <no body>") :=
  ⟨(C6_openrouter_failure (constEnv ⟨false, 404,
        some "no ENDPOINTS found matching your data policy.", .ok .null⟩) "k" "p" _ rfl rfl).1.2
      ⟨rfl, [], "no ENDPOINTS found matching your data policy".data, ['.'], by decide,
        by decide⟩,
   (C6_openrouter_failure (constEnv ⟨false, 500, none, .ok .null⟩) "k" "p" _ rfl rfl).2
      (fun h => absurd h.1 (by decide))⟩

/-- A provider resolved in the words of the specification that is not empty
and is none of the four identifiers is also what the code resolves. -/
theorem effectiveProvider_of_spec_unknown (provider stored : Option String)
    (hne : resolveProviderSpec provider stored ≠ "")
    (h : ∀ p : ProviderId, resolveProviderSpec provider stored ≠ p.id) :
    effectiveProvider provider stored = resolveProviderSpec provider stored := by
  unfold resolveProviderSpec at hne h ⊢
  unfold effectiveProvider
  cases provider with
  | some q =>
    simp only at hne ⊢
    simp [hne]
  | none =>
    cases stored with
    | some q =>
      simp only at hne ⊢
      simp [hne]
    | none => exact absurd rfl (h .openai)

/-- C7 (amended): for every non-empty `userPrompt`, when the effective provider
is none of the four supported identifiers, `handleOptimize` fails with
`Unsupported provider` without any HTTP call, whatever credentials are stored.
The effective provider is the first non-empty value among the request value,
the stored `po_provider` and `openai`: the statement holds for the value the
specification resolves whenever that value is not empty, and for the value the
code resolves. A request whose provider is the empty string is handled as a
request without provider. -/
theorem C7_unsupported_provider (env : Env) (storage : Storage) (provider : Option String)
    (u : String) (hu : u ≠ "")
    (h : (resolveProviderSpec provider storage.po_provider ≠ "" ∧
        ∀ p : ProviderId, resolveProviderSpec provider storage.po_provider ≠ p.id) ∨
      (∀ p : ProviderId, effectiveProvider provider storage.po_provider ≠ p.id)) :
    handleOptimize env storage (some ⟨provider, some u⟩) =
      ⟨[], .error (mkError "Unsupported provider")⟩ ∧
    onMessage env storage (.optimizePrompt (some ⟨provider, some u⟩)) =
      ([], some (.failure "Unsupported provider")) ∧
    handleOptimize env storage (some ⟨some "", some u⟩) =
      handleOptimize env storage (some ⟨none, some u⟩) := by
  have h' : ∀ p : ProviderId, effectiveProvider provider storage.po_provider ≠ p.id := by
    rcases h with ⟨hne, hs⟩ | hc
    · intro p
      rw [effectiveProvider_of_spec_unknown provider storage.po_provider hne hs]
      exact hs p
    · exact hc
  have h1 : handleOptimize env storage (some ⟨provider, some u⟩) =
      ⟨[], .error (mkError "Unsupported provider")⟩ := by
    have ha := h' .openai
    have hb := h' .gemini
    have hc := h' .claude
    have hd := h' .openrouter
    simp only [ProviderId.id] at ha hb hc hd
    unfold handleOptimize
    simp [hu, ha, hb, hc, hd]
  refine ⟨h1, ?_, ?_⟩
  · simp only [onMessage, onOptimizePrompt, h1]
    rfl
  · have he : effectiveProvider (some "") storage.po_provider =
        effectiveProvider none storage.po_provider := by
      simp [effectiveProvider]
    unfold handleOptimize
    simp only [Option.bind, he]

/-- C7 (witness): the request names `ollama` while `gemini` is stored with
every key present. -/
theorem C7_unsupported_provider_witness :
    handleOptimize (constEnv (okResponse (chatCompletion "hi")))
        ⟨none, some "gemini", some "a", some "b", some "c", some "d"⟩
        (some ⟨some "ollama", some "x"⟩) =
      ⟨[], .error (mkError "Unsupported provider")⟩ ∧
    onMessage (constEnv (okResponse (chatCompletion "hi")))
        ⟨none, some "gemini", some "a", some "b", some "c", some "d"⟩
        (.optimizePrompt (some ⟨some "ollama", some "x"⟩)) =
      ([], some (.failure "Unsupported provider")) ∧
    handleOptimize (constEnv (okResponse (chatCompletion "hi")))
        ⟨none, some "gemini", some "a", some "b", some "c", some "d"⟩
        (some ⟨some "", some "x"⟩) =
      handleOptimize (constEnv (okResponse (chatCompletion "hi")))
        ⟨none, some "gemini", some "a", some "b", some "c", some "d"⟩
        (some ⟨none, some "x"⟩) :=
  C7_unsupported_provider _ ⟨none, some "gemini", some "a", some "b", some "c", some "d"⟩
    (some "ollama") "x" (by decide)
    (Or.inl ⟨by decide, fun p => by cases p <;> decide⟩)

/-- C7 (counterexample): the request carries the empty string as provider. By
the words of the specification the effective provider is that value, which is
none of the four identifiers, yet `handleOptimize` does not fail with
`Unsupported provider`: with nothing stored as provider it falls back to
`openai`, with `gemini` stored it falls back to `gemini`, and each time it
issues the HTTP call and returns the vendor text. -/
theorem C7_empty_provider_falls_back :
    resolveProviderSpec (some "") none = "" ∧
    (∀ p : ProviderId, resolveProviderSpec (some "") none ≠ p.id) ∧
    (handleOptimize (constEnv (okResponse (chatCompletion "hi")))
        ⟨none, none, some "k", none, none, none⟩ (some ⟨some "", some "x"⟩)).result = .ok "hi" ∧
    (handleOptimize (constEnv (okResponse (chatCompletion "hi")))
        ⟨none, none, some "k", none, none, none⟩ (some ⟨some "", some "x"⟩)).calls =
      [openaiRequest "k" (DEFAULT_META_PROMPT ++ "x")] ∧
    (∀ p : ProviderId, resolveProviderSpec (some "") (some "gemini") ≠ p.id) ∧
    (handleOptimize (constEnv (okResponse (geminiAnswer "hi")))
        ⟨none, some "gemini", none, some "g", none, none⟩ (some ⟨some "", some "x"⟩)).result =
      .ok "hi" ∧
    (handleOptimize (constEnv (okResponse (geminiAnswer "hi")))
        ⟨none, some "gemini", none, some "g", none, none⟩ (some ⟨some "", some "x"⟩)).calls =
      [geminiRequest (constEnv (okResponse (geminiAnswer "hi"))) "g"
        (DEFAULT_META_PROMPT ++ "x")] :=
  ⟨rfl, fun p => by cases p <;> decide, rfl, rfl, fun p => by cases p <;> decide, rfl, rfl⟩

/-! ## The overlay: which failures show the settings shortcut -/

/-- C8: for each of the four providers the missing-credential message of
`handleOptimize` satisfies `needsApiKeyHint`, so the failure branch of the
overlay renders it with the settings shortcut; `needsApiKeyHint` is false for
`Missing user prompt`, `Unsupported provider` and the four
`Empty response from <Provider>` messages, which are rendered as plain text. -/
theorem C8_hint_for_credential_failures :
    (∀ p : ProviderId,
      needsApiKeyHint (some (p.label ++ " API key not set. Add it in Options.")) = true ∧
      renderFailure (some (.failure (p.label ++ " API key not set. Add it in Options."))) =
        .withShortcut (p.label ++ " API key not set. Add it in Options." ++ HINT_MARKUP)) ∧
    (needsApiKeyHint (some "Missing user prompt") = false ∧
      renderFailure (some (.failure "Missing user prompt")) = .plain "Missing user prompt") ∧
    (needsApiKeyHint (some "Unsupported provider") = false ∧
      renderFailure (some (.failure "Unsupported provider")) = .plain "Unsupported provider") ∧
    (∀ p : ProviderId,
      needsApiKeyHint (some ("Empty response from " ++ p.label)) = false ∧
      renderFailure (some (.failure ("Empty response from " ++ p.label))) =
        .plain ("Empty response from " ++ p.label)) := by
  refine ⟨fun p => ?_, ⟨by decide, by decide⟩, ⟨by decide, by decide⟩, fun p => ?_⟩
  · cases p <;> exact ⟨by decide, by set_option maxRecDepth 100000 in decide⟩
  · cases p <;> exact ⟨by decide, by decide⟩

/-! ## The document: counting elements under insertion and removal -/

theorem countList_append (q : Node → Bool) (xs ys : List Node) :
    Node.countList q (xs ++ ys) = Node.countList q xs + Node.countList q ys := by
  induction xs with
  | nil => simp [Node.countList]
  | cons x xs ih => simp [Node.countList, ih, Nat.add_assoc]

theorem countList_insertAt (q : Node → Bool) (x : Node) (idx : Option Nat) (cs : List Node) :
    Node.countList q (insertAt x idx cs) = Node.countList q cs + Node.count q x := by
  induction cs generalizing idx with
  | nil => cases idx <;> simp [insertAt, Node.countList]
  | cons c cs ih =>
    match idx with
    | none => simp [insertAt, countList_append, Node.countList, Nat.add_assoc]
    | some 0 =>
      simp only [insertAt, Node.countList]
      omega
    | some (i + 1) =>
      simp only [insertAt, Node.countList, ih]
      omega

mutual
/-- An insertion adds at most the elements of the inserted subtree. -/
theorem count_insertChild_le (q : Node → Bool) (hq : ∀ r t a cs cs', q (.elem r t a cs) =
    q (.elem r t a cs')) (x : Node) (idx : Option Nat) :
    ∀ (n : Node) (p : Path),
      Node.count q (Node.insertChild x idx n p) ≤ Node.count q n + Node.count q x
  | .text d, p => by simp [Node.insertChild]
  | .elem r t a cs, [] => by
    simp only [Node.insertChild, Node.count, countList_insertAt, hq r t a (insertAt x idx cs) cs]
    omega
  | .elem r t a cs, i :: p => by
    have := countList_insertInList_le q hq x idx cs i p
    simp only [Node.insertChild, Node.count, hq r t a (Node.insertInList x idx cs i p) cs]
    omega
/-- An insertion below one of a list of siblings adds at most the elements of
the inserted subtree. -/
theorem countList_insertInList_le (q : Node → Bool) (hq : ∀ r t a cs cs', q (.elem r t a cs) =
    q (.elem r t a cs')) (x : Node) (idx : Option Nat) :
    ∀ (cs : List Node) (i : Nat) (p : Path),
      Node.countList q (Node.insertInList x idx cs i p) ≤ Node.countList q cs + Node.count q x
  | [], _, _ => by simp [Node.insertInList, Node.countList]
  | c :: cs, 0, p => by
    have := count_insertChild_le q hq x idx c p
    simp only [Node.insertInList, Node.countList]
    omega
  | c :: cs, i + 1, p => by
    have := countList_insertInList_le q hq x idx cs i p
    simp only [Node.insertInList, Node.countList]
    omega
end

mutual
/-- A removal adds no element. -/
theorem count_removeRef_le (q : Node → Bool) (hq : ∀ r t a cs cs', q (.elem r t a cs) =
    q (.elem r t a cs')) (ref : Nat) :
    ∀ n : Node, Node.count q (Node.removeRef ref n) ≤ Node.count q n
  | .text d => by simp [Node.removeRef]
  | .elem r t a cs => by
    have := countList_removeRefList_le q hq ref cs
    simp only [Node.removeRef, Node.count, hq r t a (Node.removeRefList ref cs) cs]
    omega
/-- A removal among siblings adds no element. -/
theorem countList_removeRefList_le (q : Node → Bool) (hq : ∀ r t a cs cs', q (.elem r t a cs) =
    q (.elem r t a cs')) (ref : Nat) :
    ∀ cs : List Node, Node.countList q (Node.removeRefList ref cs) ≤ Node.countList q cs
  | [] => by simp [Node.removeRefList]
  | c :: cs => by
    have h1 := count_removeRef_le q hq ref c
    have h2 := countList_removeRefList_le q hq ref cs
    simp only [Node.removeRefList, Node.countList]
    split
    · omega
    · simp only [Node.countList]
      omega
end

mutual
/-- When the search for an element that satisfies `q` finds nothing, no
element of the subtree satisfies `q`. -/
theorem count_eq_zero_of_find_none (q : Node → Bool) :
    ∀ (n : Node) (ancs : List Node),
      Node.find (fun _ m => q m) ancs n = none → Node.count q n = 0
  | .text d, _, _ => by simp [Node.count]
  | .elem r t a cs, ancs, h => by
    simp only [Node.find] at h
    split at h
    · cases h
    · rename_i hq
      have := countList_eq_zero_of_findList_none q cs _ 0 h
      simp [Node.count, hq, this]
/-- When the search among siblings finds nothing, no element below them
satisfies `q`. -/
theorem countList_eq_zero_of_findList_none (q : Node → Bool) :
    ∀ (cs : List Node) (ancs : List Node) (i : Nat),
      Node.findList (fun _ m => q m) ancs i cs = none → Node.countList q cs = 0
  | [], _, _, _ => by simp [Node.countList]
  | c :: cs, ancs, i, h => by
    simp only [Node.findList] at h
    split at h
    · cases h
    · rename_i hc
      have h1 := count_eq_zero_of_find_none q c ancs hc
      have h2 := countList_eq_zero_of_findList_none q cs ancs (i + 1) h
      simp [Node.countList, h1, h2]
end

theorem hasId_children_irrelevant (id : String) (r : Nat) (t : String)
    (a : List (String × String)) (cs cs' : List Node) :
    Node.hasId id (.elem r t a cs) = Node.hasId id (.elem r t a cs') := rfl

theorem count_triggerButton (r : Nat) :
    Node.count (Node.hasId ID.button) (triggerButton r) = 1 := rfl

theorem count_overlayTree (b : Nat) :
    Node.count (Node.hasId ID.modal) (overlayTree b) = 1 := by
  simp [overlayTree, Node.count, Node.countList, Node.hasId, Node.attr, List.lookup, ID.modal,
    ID.overlay, ID.form, ID.input, ID.output, ID.provider]

/-- One call of `injectButton` leaves at most one trigger when the document
held at most one. -/
theorem triggerCount_injectButton (page : Page) (target : Option Path)
    (h : triggerCount page ≤ 1) : triggerCount (injectButton page target) ≤ 1 := by
  unfold injectButton
  cases target with
  | none => exact h
  | some target =>
    simp only
    cases hg : getElementById page.root ID.button with
    | some el => exact h
    | none =>
      have h0 : Node.count (Node.hasId ID.button) page.root = 0 :=
        count_eq_zero_of_find_none _ _ _ hg
      simp only
      cases choosePlacement page target with
      | insert parent idx =>
        have := count_insertChild_le (Node.hasId ID.button)
          (hasId_children_irrelevant ID.button) (triggerButton page.next) idx
          page.root parent
        simp only [triggerCount]
        rw [h0, count_triggerButton] at this
        omega
      | done => simp only [triggerCount, h0]; omega
      | fallThrough => simp only [triggerCount, h0]; omega

theorem triggerCount_ensureUI (page : Page) (h : triggerCount page ≤ 1) :
    triggerCount (ensureUI page) ≤ 1 := by
  unfold ensureUI
  cases findPromptInput page with
  | none => exact h
  | some input => exact triggerCount_injectButton page (some input) h

theorem triggerCount_iterate (n : Nat) :
    ∀ page : Page, triggerCount page ≤ 1 → triggerCount (Nat.iterate ensureUI n page) ≤ 1 := by
  induction n with
  | zero => intro page h; exact h
  | succ k ih =>
    intro page h
    rw [Function.iterate_succ_apply]
    exact ih _ (triggerCount_ensureUI page h)

theorem modalCount_openModal (page : Page) (h : modalCount page ≤ 1) :
    modalCount (openModal page) ≤ 1 := by
  unfold openModal
  cases hg : getElementById page.root ID.modal with
  | some el => exact h
  | none =>
    have h0 : Node.count (Node.hasId ID.modal) page.root = 0 :=
      count_eq_zero_of_find_none _ _ _ hg
    simp only
    cases bodyPath page.root with
    | none => simp only [modalCount, h0]; omega
    | some body =>
      have := count_insertChild_le (Node.hasId ID.modal)
        (hasId_children_irrelevant ID.modal) (overlayTree page.next) none
        page.root body
      simp only [modalCount]
      rw [h0, count_overlayTree] at this
      omega

theorem modalCount_step (page : Page) (a : Action) (h : modalCount page ≤ 1) :
    modalCount (step page a) ≤ 1 := by
  cases a with
  | activate => exact modalCount_openModal page h
  | close r =>
    simp only [step]
    split
    · have := count_removeRef_le (Node.hasId ID.modal) (hasId_children_irrelevant ID.modal) r
        page.root
      simp only [modalCount, closeOverlay] at h ⊢
      omega
    · exact h

theorem modalCount_runActions (actions : List Action) :
    ∀ page : Page, modalCount page ≤ 1 → modalCount (runActions page actions) ≤ 1 := by
  induction actions with
  | nil => intro page h; exact h
  | cons a rest ih =>
    intro page h
    simp only [runActions, List.foldl_cons]
    exact ih _ (modalCount_step page a h)

/-! ## The page controller and the overlay -/

/-- C9 (amended): starting from any document state that holds at most one
element with id `po-optimize-button`, after any number of consecutive runs of
`ensureUI` the document holds at most one such element; and from any document
state, a run that finds an attached trigger leaves the page unchanged. -/
theorem C9_idempotent_injection (page : Page) (n : Nat) :
    (triggerCount page ≤ 1 → triggerCount (Nat.iterate ensureUI n page) ≤ 1) ∧
    (∀ el, getElementById page.root ID.button = some el → ensureUI page = page) := by
  refine ⟨triggerCount_iterate n page, ?_⟩
  intro el hel
  unfold ensureUI
  cases findPromptInput page with
  | none => rfl
  | some input => simp [injectButton, hel]

/-- C9 (witness): the ChatGPT sample page after its first run, which holds the
injected trigger: three more runs leave one trigger, and a run leaves the page
as it is. -/
theorem C9_idempotent_injection_witness :
    triggerCount (Nat.iterate ensureUI 3 (ensureUI chatGPTPage)) ≤ 1 ∧
    ensureUI (ensureUI chatGPTPage) = ensureUI chatGPTPage :=
  ⟨(C9_idempotent_injection (ensureUI chatGPTPage) 3).1 (by decide),
   (C9_idempotent_injection (ensureUI chatGPTPage) 3).2 [1, 0, 0, 1, 0] (by decide)⟩

/-- C9 (counterexample): a ChatGPT document that holds the prompt textarea and
two elements with id `po-optimize-button`; a run of `ensureUI` finds the input
and the first of them and returns, so two such elements remain. -/
theorem C9_two_triggers_remain :
    isChatGPT twoTriggersPage = true ∧
    findPromptInput twoTriggersPage = some [0, 0, 0] ∧
    triggerCount (ensureUI twoTriggersPage) = 2 ∧
    ¬ triggerCount (Nat.iterate ensureUI 3 twoTriggersPage) ≤ 1 := by
  decide

/-- The first run of `ensureUI` on the sample pages injects one trigger. -/
theorem ensureUI_sample_pages :
    triggerCount chatGPTPage = 0 ∧ triggerCount (ensureUI chatGPTPage) = 1 ∧
    triggerCount geminiPage = 0 ∧ triggerCount (ensureUI geminiPage) = 1 := by
  decide

/-- C10: from a page that holds at most one overlay (in particular none, as
before the first activation), every sequence of trigger activations and closes
leads to a page that holds at most one element with id `po-modal`; and in any
state, `openModal` called while such an element is in the document leaves the
page unchanged. -/
theorem C10_single_session (page : Page) (actions : List Action) :
    (modalCount page ≤ 1 → modalCount (runActions page actions) ≤ 1) ∧
    (∀ el, getElementById page.root ID.modal = some el → openModal page = page) := by
  refine ⟨modalCount_runActions actions page, ?_⟩
  intro el hel
  simp [openModal, hel]

/-- C10 (witness): the ChatGPT sample page with an overlay open: two
activations, a close and an activation leave at most one overlay, and an
activation leaves the page as it is. -/
theorem C10_single_session_witness :
    modalCount (runActions (openModal chatGPTPage)
      [.activate, .activate, .close 10, .activate]) ≤ 1 ∧
    openModal (openModal chatGPTPage) = openModal chatGPTPage :=
  ⟨(C10_single_session (openModal chatGPTPage)
      [.activate, .activate, .close 10, .activate]).1 (by decide),
   (C10_single_session (openModal chatGPTPage)
      [.activate, .activate, .close 10, .activate]).2 [1, 1, 0] (by decide)⟩

/-- Opening, re-opening and closing on the sample page: one overlay, still
one, none. -/
theorem openModal_sample_page :
    modalCount chatGPTPage = 0 ∧ modalCount (openModal chatGPTPage) = 1 ∧
    modalCount (runActions chatGPTPage [.activate, .activate]) = 1 ∧
    modalCount (runActions chatGPTPage [.activate, .close 10]) = 0 := by
  refine ⟨by decide, by decide, ?_, ?_⟩ <;> rfl

/-! ## The submit handler: the local guard -/

theorem dropWhile_append_keep (p : Char → Bool) (xs : List Char) (c : Char) (h : p c = false) :
    ∃ ys, (xs ++ [c]).dropWhile p = ys ++ [c] := by
  induction xs with
  | nil => exact ⟨[], by simp [List.dropWhile, h]⟩
  | cons x xs ih =>
    by_cases hx : p x = true
    · obtain ⟨ys, hys⟩ := ih
      exact ⟨ys, by simp [List.dropWhile_cons, hx, hys]⟩
    · exact ⟨x :: xs, by simp [List.dropWhile_cons, hx]⟩

theorem trimStart_head (l : List Char) (c : Char) (h : (trimStart l).head? = some c) :
    isJsWhiteSpace c = false := by
  have := List.head?_dropWhile_not isJsWhiteSpace l
  unfold trimStart at h
  rw [h] at this
  exact this

theorem trimEnd_head (l : List Char) (c : Char) (hc : isJsWhiteSpace c = false)
    (h : l.head? = some c) : (trimEnd l).head? = some c := by
  cases l with
  | nil => simp at h
  | cons x xs =>
    simp only [List.head?_cons, Option.some.injEq] at h
    subst h
    obtain ⟨ys, hys⟩ := dropWhile_append_keep isJsWhiteSpace xs.reverse x hc
    simp [trimEnd, hys]

theorem trimEnd_last (l : List Char) (c : Char) (h : (trimEnd l).getLast? = some c) :
    isJsWhiteSpace c = false := by
  have := List.head?_dropWhile_not isJsWhiteSpace l.reverse
  unfold trimEnd at h
  rw [List.getLast?_reverse] at h
  rw [h] at this
  exact this

/-- The result of `trim` has no leading and no trailing white space. -/
theorem jsTrim_noOuterWhiteSpace (s : String) : NoOuterWhiteSpace (jsTrim s) := by
  refine ⟨fun c h => ?_, fun c h => trimEnd_last _ c h⟩
  simp only [jsTrim] at h
  cases hm : trimStart s.data with
  | nil =>
    rw [hm] at h
    simp [trimEnd] at h
  | cons x xs =>
    have hx : isJsWhiteSpace x = false := trimStart_head s.data x (by rw [hm]; rfl)
    have := trimEnd_head (x :: xs) x hx rfl
    rw [hm, this] at h
    cases h
    exact hx

/-- C11: on every submit of the overlay form, if the input is empty after
trimming, no message is sent, the error `Please enter a prompt.` is shown and
the submit control ends enabled; otherwise exactly one `OPTIMIZE_PROMPT`
message is sent; and every message sent carries the trimmed input as
`userPrompt`, which is non-empty and has no leading or trailing white space.
The submit control ends enabled in every case. -/
theorem C11_submit_guard (sendMessage : Message → Except JsError (Option Reply))
    (provider input : String) :
    (jsTrim input = "" →
      (submitHandler sendMessage provider input).sent = [] ∧
      (submitHandler sendMessage provider input).final.errorMsg =
        .plain "Please enter a prompt." ∧
      (submitHandler sendMessage provider input).final.submitDisabled = false) ∧
    (jsTrim input ≠ "" →
      (submitHandler sendMessage provider input).sent =
        [.optimizePrompt (some ⟨some provider, some (jsTrim input)⟩)]) ∧
    (∀ m ∈ (submitHandler sendMessage provider input).sent,
      ∃ u, m = .optimizePrompt (some ⟨some provider, some u⟩) ∧ u = jsTrim input ∧
        u ≠ "" ∧ NoOuterWhiteSpace u) ∧
    (submitHandler sendMessage provider input).final.submitDisabled = false := by
  by_cases he : jsTrim input = ""
  · have hrun : submitHandler sendMessage provider input =
        ⟨[], none, ⟨false, "Optimize Prompt", "", .plain "Please enter a prompt.", true⟩⟩ := by
      simp [submitHandler, he]
    rw [hrun]
    exact ⟨fun _ => ⟨rfl, rfl, rfl⟩, fun h => absurd he h,
      fun m hm => absurd hm (List.not_mem_nil m), rfl⟩
  · have hb : (!(jsTrim input != "")) = false := by simp [he]
    have hsent : (submitHandler sendMessage provider input).sent =
        [.optimizePrompt (some ⟨some provider, some (jsTrim input)⟩)] := by
      unfold submitHandler
      simp only [hb, Bool.false_eq_true, if_false]
      split <;> rfl
    have hfinal : (submitHandler sendMessage provider input).final.submitDisabled = false := by
      unfold submitHandler
      simp only [hb, Bool.false_eq_true, if_false]
      split <;> rfl
    refine ⟨fun h => absurd h he, fun _ => hsent, fun m hm => ?_, hfinal⟩
    rw [hsent, List.mem_singleton] at hm
    exact ⟨jsTrim input, hm, rfl, he, jsTrim_noOuterWhiteSpace input⟩

/-- C11 (witness): against the dispatcher with an OpenAI key stored, a blank
input is stopped by the guard, and an input with surrounding white space is
sent trimmed. -/
theorem C11_submit_guard_witness :
    ((submitHandler (dispatcherChannel (constEnv (okResponse (chatCompletion "hi")))
        ⟨none, none, some "k", none, none, none⟩) "openai" "  \n").sent = [] ∧
      (submitHandler (dispatcherChannel (constEnv (okResponse (chatCompletion "hi")))
        ⟨none, none, some "k", none, none, none⟩) "openai" "  \n").final.errorMsg =
        .plain "Please enter a prompt." ∧
      (submitHandler (dispatcherChannel (constEnv (okResponse (chatCompletion "hi")))
        ⟨none, none, some "k", none, none, none⟩) "openai" "  \n").final.submitDisabled =
        false) ∧
    (submitHandler (dispatcherChannel (constEnv (okResponse (chatCompletion "hi")))
        ⟨none, none, some "k", none, none, none⟩) "openai" " write a poem \n").sent =
      [.optimizePrompt (some ⟨some "openai", some "write a poem"⟩)] ∧
    (∃ u, Message.optimizePrompt (some ⟨some "openai", some "write a poem"⟩) =
        .optimizePrompt (some ⟨some "openai", some u⟩) ∧ u = jsTrim " write a poem \n" ∧
        u ≠ "" ∧ NoOuterWhiteSpace u) :=
  ⟨(C11_submit_guard (dispatcherChannel (constEnv (okResponse (chatCompletion "hi")))
        ⟨none, none, some "k", none, none, none⟩) "openai" "  \n").1 (by decide),
   (C11_submit_guard (dispatcherChannel (constEnv (okResponse (chatCompletion "hi")))
        ⟨none, none, some "k", none, none, none⟩) "openai" " write a poem \n").2.1 (by decide),
   (C11_submit_guard (dispatcherChannel (constEnv (okResponse (chatCompletion "hi")))
        ⟨none, none, some "k", none, none, none⟩) "openai" " write a poem \n").2.2.1 _
      (List.Mem.head [])⟩

/-- A submit against the dispatcher on the sample inputs: the vendor text is
shown, and a missing key is shown with the settings shortcut. -/
theorem submitHandler_samples :
    (submitHandler (dispatcherChannel (constEnv (okResponse (chatCompletion " hi ")))
        ⟨none, none, some "k", none, none, none⟩) "openai" " write a poem \n").final =
      ⟨false, "Optimize Prompt", "hi", .plain "", false⟩ ∧
    (submitHandler (dispatcherChannel (constEnv (okResponse (chatCompletion " hi ")))
        emptyStorage) "claude" "x").final =
      ⟨false, "Optimize Prompt", "",
        .withShortcut ("Claude API key not set. Add it in Options." ++ HINT_MARKUP), true⟩ := by
  constructor <;> set_option maxRecDepth 100000 in decide

/-! ## Escaping -/

theorem replaceAll_append (c : Char) (rep : String) (xs ys : List Char) :
    replaceAll c rep (xs ++ ys) = replaceAll c rep xs ++ replaceAll c rep ys := by
  induction xs with
  | nil => rfl
  | cons x xs ih => simp [replaceAll, ih]

theorem escape_single (x : Char) :
    replaceAll (Char.ofNat 39) "&#039;"
      (replaceAll (Char.ofNat 34) "&quot;"
        (replaceAll (Char.ofNat 62) "&gt;"
          (replaceAll (Char.ofNat 60) "&lt;"
            (replaceAll (Char.ofNat 38) "&amp;" [x])))) = escapeChar x := by
  unfold escapeChar
  by_cases h1 : x = '&'
  · subst h1; decide
  by_cases h2 : x = '<'
  · subst h2; decide
  by_cases h3 : x = '>'
  · subst h3; decide
  by_cases h4 : x = Char.ofNat 34
  · subst h4; decide
  by_cases h5 : x = Char.ofNat 39
  · subst h5; decide
  simp [replaceAll, h1, h2, h3, h4, h5]

theorem escape_chain_eq (l : List Char) :
    replaceAll (Char.ofNat 39) "&#039;"
      (replaceAll (Char.ofNat 34) "&quot;"
        (replaceAll (Char.ofNat 62) "&gt;"
          (replaceAll (Char.ofNat 60) "&lt;"
            (replaceAll (Char.ofNat 38) "&amp;" l)))) = escapeEach l := by
  induction l with
  | nil => rfl
  | cons x xs ih =>
    have h : x :: xs = [x] ++ xs := rfl
    rw [h]
    simp only [replaceAll_append, escape_single, ih]
    rfl

theorem escapeHTML_data (s : String) : (escapeHTML s).data = escapeEach s.data :=
  escape_chain_eq s.data

theorem escapeChar_clean (x c : Char) (h : c ∈ escapeChar x) :
    c ≠ '<' ∧ c ≠ '>' ∧ c ≠ Char.ofNat 34 ∧ c ≠ Char.ofNat 39 := by
  unfold escapeChar at h
  split at h
  · revert c; decide
  split at h
  · revert c; decide
  split at h
  · revert c; decide
  split at h
  · revert c; decide
  split at h
  · revert c; decide
  · rename_i h1 h2 h3 h4 h5
    simp only [List.mem_singleton] at h
    subst h
    exact ⟨h2, h3, h4, h5⟩

theorem escapeEach_clean (l : List Char) (c : Char) (h : c ∈ escapeEach l) :
    c ≠ '<' ∧ c ≠ '>' ∧ c ≠ Char.ofNat 34 ∧ c ≠ Char.ofNat 39 := by
  induction l with
  | nil => simp [escapeEach] at h
  | cons x xs ih =>
    simp only [escapeEach, List.mem_append] at h
    rcases h with h | h
    · exact escapeChar_clean x c h
    · exact ih h

/-- A split of `tail ++ rest` before an occurrence of `a` falls inside `rest`
when `a` does not occur in `tail`. -/
theorem split_after_free {a : Char} (tail rest pre post : List Char) (hfree : a ∉ tail)
    (h : tail ++ rest = pre ++ a :: post) :
    ∃ pre', pre = tail ++ pre' ∧ rest = pre' ++ a :: post := by
  induction tail generalizing pre with
  | nil => exact ⟨pre, rfl, by simpa using h⟩
  | cons t ts ih =>
    cases pre with
    | nil =>
      simp only [List.cons_append, List.nil_append, List.cons.injEq] at h
      exact absurd (h.1 ▸ List.mem_cons_self _ _) hfree
    | cons q qs =>
      simp only [List.cons_append, List.cons.injEq] at h
      obtain ⟨rfl, h⟩ := h
      obtain ⟨pre', h1, h2⟩ := ih qs (fun hm => hfree (List.mem_cons_of_mem _ hm)) h
      exact ⟨pre', by simp [h1], h2⟩

/-- The escaping of one character is the character itself, which is not `&`,
or an entity: `&` followed by characters other than `&`. -/
theorem escapeChar_shape (x : Char) :
    (escapeChar x = [x] ∧ x ≠ '&') ∨
    ∃ e ∈ ENTITIES, ∃ tail, e.data = '&' :: tail ∧ '&' ∉ tail ∧ escapeChar x = e.data := by
  unfold escapeChar
  by_cases h1 : x = '&'
  · exact Or.inr ⟨"&amp;", by decide, "amp;".data, rfl, by decide, by simp [h1]⟩
  by_cases h2 : x = '<'
  · exact Or.inr ⟨"&lt;", by decide, "lt;".data, rfl, by decide, by simp [h1, h2]⟩
  by_cases h3 : x = '>'
  · exact Or.inr ⟨"&gt;", by decide, "gt;".data, rfl, by decide, by simp [h1, h2, h3]⟩
  by_cases h4 : x = Char.ofNat 34
  · exact Or.inr ⟨"&quot;", by decide, "quot;".data, rfl, by decide, by simp [h1, h2, h3, h4]⟩
  by_cases h5 : x = Char.ofNat 39
  · exact Or.inr ⟨"&#039;", by decide, "#039;".data, rfl, by decide,
      by simp [h1, h2, h3, h4, h5]⟩
  · exact Or.inl ⟨by simp [h1, h2, h3, h4, h5], h1⟩

theorem escapeEach_amp (l : List Char) :
    ∀ pre post, escapeEach l = pre ++ '&' :: post →
      ∃ e ∈ ENTITIES, ∃ rest, '&' :: post = e.data ++ rest := by
  induction l with
  | nil => intro pre post h; simp [escapeEach] at h
  | cons x xs ih =>
    intro pre post h
    simp only [escapeEach] at h
    rcases escapeChar_shape x with ⟨hx, hne⟩ | ⟨e, he, tail, hdata, hfree, hx⟩
    · rw [hx] at h
      cases pre with
      | nil =>
        simp only [List.singleton_append, List.nil_append, List.cons.injEq] at h
        exact absurd h.1 hne
      | cons q qs =>
        simp only [List.singleton_append, List.cons_append, List.cons.injEq] at h
        exact ih qs post h.2
    · rw [hx, hdata] at h
      cases pre with
      | nil =>
        simp only [List.cons_append, List.nil_append, List.cons.injEq, true_and] at h
        refine ⟨e, he, escapeEach xs, ?_⟩
        rw [hdata, List.cons_append, h]
      | cons q qs =>
        simp only [List.cons_append, List.cons.injEq] at h
        obtain ⟨pre', _, h2⟩ := split_after_free tail (escapeEach xs) qs post hfree h.2
        exact ih pre' post h2

theorem unescape_escapeChar (x : Char) (rest : List Char) :
    unescapeFrom 0 (escapeChar x ++ rest) = x :: unescapeFrom 0 rest := by
  unfold escapeChar
  by_cases h1 : x = '&'
  · subst h1; simp [unescapeFrom, entityAt, startsWithExact]
  by_cases h2 : x = '<'
  · subst h2; simp [unescapeFrom, entityAt, startsWithExact]
  by_cases h3 : x = '>'
  · subst h3; simp [unescapeFrom, entityAt, startsWithExact]
  by_cases h4 : x = Char.ofNat 34
  · subst h4; simp [unescapeFrom, entityAt, startsWithExact]
  by_cases h5 : x = Char.ofNat 39
  · subst h5; simp [unescapeFrom, entityAt, startsWithExact]
  · have hx : ('&' == x) = false := by
      rw [beq_eq_false_iff_ne]
      exact fun h => h1 h.symm
    simp [h1, h2, h3, h4, h5, unescapeFrom, entityAt, startsWithExact, hx]

theorem unescape_escapeEach (l : List Char) : unescapeFrom 0 (escapeEach l) = l := by
  induction l with
  | nil => rfl
  | cons x xs ih => rw [escapeEach, unescape_escapeChar, ih]

/-- Whatever the submit handler assigns to `innerHTML` of the error area is an
escaped message followed by the fixed hint markup. -/
theorem submitHandler_innerHTML (sendMessage : Message → Except JsError (Option Reply))
    (provider input html : String)
    (h : (submitHandler sendMessage provider input).final.errorMsg = .withShortcut html) :
    ∃ msg, html = escapeHTML msg ++ HINT_MARKUP := by
  unfold submitHandler at h
  simp only at h
  split at h
  · cases h
  · split at h
    · cases h
    · simp only [renderFailure] at h
      split at h
      · cases h
        exact ⟨_, rfl⟩
      · cases h
    · simp only at h
      split at h
      · cases h
        exact ⟨_, rfl⟩
      · cases h

/-- C12: for every string `s`, `escapeHTML s` holds none of the characters
`<`, `>`, the double quote and the apostrophe; every `&` in it begins one of the
five entities; it is `s` with every character escaped on its own, once;
replacing the entities by the characters they stand for gives back `s`; the
escaping is injective; and whatever the submit handler of the overlay assigns
to `innerHTML` is an escaped message followed by the fixed hint markup. -/
theorem C12_escapeHTML (s : String) :
    (∀ c ∈ (escapeHTML s).data,
      c ≠ '<' ∧ c ≠ '>' ∧ c ≠ Char.ofNat 34 ∧ c ≠ Char.ofNat 39) ∧
    (∀ pre post, (escapeHTML s).data = pre ++ '&' :: post →
      ∃ e ∈ ENTITIES, ∃ rest, '&' :: post = e.data ++ rest) ∧
    (escapeHTML s).data = escapeEach s.data ∧
    unescapeHTML (escapeHTML s) = s ∧
    (∀ t, escapeHTML s = escapeHTML t → s = t) ∧
    (∀ (sendMessage : Message → Except JsError (Option Reply)) (provider input html : String),
      (submitHandler sendMessage provider input).final.errorMsg = .withShortcut html →
      ∃ msg, html = escapeHTML msg ++ HINT_MARKUP) := by
  have hround : ∀ t : String, unescapeHTML (escapeHTML t) = t := by
    intro t
    simp only [unescapeHTML, escapeHTML_data, unescape_escapeEach]
  refine ⟨?_, ?_, escapeHTML_data s, hround s, ?_, ?_⟩
  · intro c hc
    rw [escapeHTML_data] at hc
    exact escapeEach_clean _ c hc
  · intro pre post h
    rw [escapeHTML_data] at h
    exact escapeEach_amp _ pre post h
  · intro t h
    have := congrArg unescapeHTML h
    rwa [hround, hround] at this
  · exact fun sendMessage provider input html h =>
      submitHandler_innerHTML sendMessage provider input html h

/-- C12 (witness): the text `<b>`: the `&` that opens its escaping is none of
the four characters and begins the entity `&lt;`, unescaping gives the text
back, a text with the same escaping is the same text, and the markup shown for
a missing Claude key is an escaped message followed by the hint markup. -/
theorem C12_escapeHTML_witness :
    ('&' ≠ '<' ∧ '&' ≠ '>' ∧ '&' ≠ Char.ofNat 34 ∧ '&' ≠ Char.ofNat 39) ∧
    (∃ e ∈ ENTITIES, ∃ rest, '&' :: "lt;b&gt;".data = e.data ++ rest) ∧
    unescapeHTML (escapeHTML "<b>") = "<b>" ∧
    "<b>" = "<" ++ "b>" ∧
    (∃ msg, "Claude API key not set. Add it in Options." ++ HINT_MARKUP =
      escapeHTML msg ++ HINT_MARKUP) :=
  ⟨(C12_escapeHTML "<b>").1 '&' (by decide),
   (C12_escapeHTML "<b>").2.1 [] "lt;b&gt;".data (by decide),
   (C12_escapeHTML "<b>").2.2.2.1,
   (C12_escapeHTML "<b>").2.2.2.2.1 ("<" ++ "b>") (by decide),
   (C12_escapeHTML "<b>").2.2.2.2.2
     (dispatcherChannel (constEnv (okResponse (chatCompletion " hi "))) emptyStorage)
     "claude" "x" ("Claude API key not set. Add it in Options." ++ HINT_MARKUP)
     (by set_option maxRecDepth 100000 in decide)⟩

/-- The escaping of a text that holds all five special characters and an
entity, and its way back. -/
theorem escapeHTML_sample :
    escapeHTML "<a href='x' t=\"y\">&amp; &</a>" =
      "&lt;a href=&#039;x&#039; t=&quot;y&quot;&gt;&amp;amp; &amp;&lt;/a&gt;" ∧
    unescapeHTML "&lt;a href=&#039;x&#039; t=&quot;y&quot;&gt;&amp;amp; &amp;&lt;/a&gt;" =
      "<a href='x' t=\"y\">&amp; &</a>" := by
  constructor <;> decide

end PromptPolish
